import Mathlib

/-!
Shallow embedding of the `uf-sbus` crate (`src/lib.rs`): an SBUS frame
codec consisting of a byte-at-a-time streaming frame assembler
(`SbusParser`), a frame validator, a bit-field decoder
(`SbusPacket.parse`) and the inverse encoder (`encode_packet`).

Machine integers are modelled as `Nat` with explicit truncation (`u8`,
`u16`) exactly where the Rust code's fixed-width arithmetic can wrap.
The parser's 25-byte scratch buffer is modelled as a total function
`Nat → Nat`; the fact that all writes stay below index 25 is proved as a
reachability invariant.
-/

def SBUS_PACKET_SIZE : Nat := 25
def SBUS_NUM_CHANNELS : Nat := 16
def SBUS_HEADER : Nat := 0x0F
def SBUS_FLAG_BYTE_MASK : Nat := 0xF0
def SBUS_FOOTER : Nat := 0x00
def CHAN_MASK : Nat := 0x07FF

/-- Truncation to 8 bits, modelling Rust `as u8`. -/
def u8 (x : Nat) : Nat := x % 256

/-- Truncation to 16 bits, modelling wrap-around of Rust `u16` shifts. -/
def u16 (x : Nat) : Nat := x % 65536

inductive SbusParserError where
  | InvalidFooter (b : Nat)
  | InvalidFlags (b : Nat)
deriving DecidableEq, Repr

/-- Rust's `Result<α, SbusParserError>` as used by the library. -/
inductive SbusResult (α : Type) where
  | Ok (v : α)
  | Err (e : SbusParserError)
deriving DecidableEq, Repr

def SbusResult.map {α β : Type} (f : α → β) : SbusResult α → SbusResult β
  | .Ok v => .Ok (f v)
  | .Err e => .Err e

/-- `is_sbus_footer` from `src/lib.rs`. -/
def is_sbus_footer (byte : Nat) : Bool :=
  match byte with
  | 0x00 => true
  | 0x04 => true
  | 0x14 => true
  | 0x24 => true
  | 0x34 => true
  | _ => false

/-- `is_flag_set_at_position` from `src/lib.rs`. -/
def is_flag_set_at_position (flag_byte : Nat) (shift_by : Nat) : Bool :=
  (flag_byte >>> shift_by) &&& 1 == 1

/-- `RawSbusPacket`: a copied 25-byte frame. -/
structure RawSbusPacket where
  bytes : Fin 25 → Nat
deriving DecidableEq

/-- `RawSbusPacket::new`, copying 25 bytes out of the parser's scratch buffer. -/
def RawSbusPacket.new (b : Nat → Nat) : RawSbusPacket := ⟨fun i => b i.val⟩

def RawSbusPacket.as_bytes (p : RawSbusPacket) : Fin 25 → Nat := p.bytes

/-- `SbusPacket`: 16 decoded channels plus the four flag booleans. -/
structure SbusPacket where
  channels : Fin 16 → Nat
  channel_17 : Bool
  channel_18 : Bool
  failsafe : Bool
  frame_lost : Bool
deriving DecidableEq

/-- `SbusPacket::parse` from `src/lib.rs`: each `ch[i] &= expr` becomes
`CHAN_MASK &&& expr`; every u16 left shift is wrapped in `u16`. -/
def SbusPacket.parse (raw_packet : RawSbusPacket) : SbusPacket :=
  let buf := raw_packet.as_bytes
  let ch0 := CHAN_MASK &&& (buf 1 ||| u16 (buf 2 <<< 8))
  let ch1 := CHAN_MASK &&& ((buf 2 >>> 3) ||| u16 (buf 3 <<< 5))
  let ch2 := CHAN_MASK &&& ((buf 3 >>> 6) ||| u16 (buf 4 <<< 2) ||| u16 (buf 5 <<< 10))
  let ch3 := CHAN_MASK &&& ((buf 5 >>> 1) ||| u16 (buf 6 <<< 7))
  let ch4 := CHAN_MASK &&& ((buf 6 >>> 4) ||| u16 (buf 7 <<< 4))
  let ch5 := CHAN_MASK &&& ((buf 7 >>> 7) ||| u16 (buf 8 <<< 1) ||| u16 (buf 9 <<< 9))
  let ch6 := CHAN_MASK &&& ((buf 9 >>> 2) ||| u16 (buf 10 <<< 6))
  let ch7 := CHAN_MASK &&& ((buf 10 >>> 5) ||| u16 (buf 11 <<< 3))
  let ch8 := CHAN_MASK &&& (buf 12 ||| u16 (buf 13 <<< 8))
  let ch9 := CHAN_MASK &&& ((buf 13 >>> 3) ||| u16 (buf 14 <<< 5))
  let ch10 := CHAN_MASK &&& ((buf 14 >>> 6) ||| u16 (buf 15 <<< 2) ||| u16 (buf 16 <<< 10))
  let ch11 := CHAN_MASK &&& ((buf 16 >>> 1) ||| u16 (buf 17 <<< 7))
  let ch12 := CHAN_MASK &&& ((buf 17 >>> 4) ||| u16 (buf 18 <<< 4))
  let ch13 := CHAN_MASK &&& ((buf 18 >>> 7) ||| u16 (buf 19 <<< 1) ||| u16 (buf 20 <<< 9))
  let ch14 := CHAN_MASK &&& ((buf 20 >>> 2) ||| u16 (buf 21 <<< 6))
  let ch15 := CHAN_MASK &&& ((buf 21 >>> 5) ||| u16 (buf 22 <<< 3))
  let flag_byte := buf 23
  { channels := ![ch0, ch1, ch2, ch3, ch4, ch5, ch6, ch7,
                  ch8, ch9, ch10, ch11, ch12, ch13, ch14, ch15],
    channel_17 := is_flag_set_at_position flag_byte 0,
    channel_18 := is_flag_set_at_position flag_byte 1,
    frame_lost := is_flag_set_at_position flag_byte 2,
    failsafe := is_flag_set_at_position flag_byte 3 }

/-- Assembler state: `State` from `src/lib.rs`. -/
inductive State where
  | AwaitingHead
  | Reading (n : Nat)
deriving DecidableEq, Repr

/-- `SbusParser`: 25-byte scratch buffer plus assembler state. -/
structure SbusParser where
  buffer : Nat → Nat
  state : State

/-- `SbusParser::new`. -/
def SbusParser.new : SbusParser := { buffer := fun _ => 0, state := .AwaitingHead }

/-- `SbusParser::validate_frame`. -/
def SbusParser.validate_frame (p : SbusParser) : SbusResult Unit :=
  let footer := p.buffer (SBUS_PACKET_SIZE - 1)
  let flags := p.buffer (SBUS_PACKET_SIZE - 2)
  if ¬ is_sbus_footer footer then .Err (.InvalidFooter footer)
  else if flags &&& SBUS_FLAG_BYTE_MASK ≠ 0 then .Err (.InvalidFlags flags)
  else .Ok ()

/-- `SbusParser::try_parse`. -/
def SbusParser.try_parse (p : SbusParser) : SbusResult RawSbusPacket :=
  if p.state ≠ State.Reading SBUS_PACKET_SIZE then
    match p.validate_frame with
    | .Err e => .Err e
    | .Ok _ => .Ok (RawSbusPacket.new p.buffer)
  else .Ok (RawSbusPacket.new p.buffer)

/-- `SbusParser::push_byte_raw`: returns the updated parser together with
the optional output of this call. -/
def SbusParser.push_byte_raw (p : SbusParser) (byte : Nat) :
    SbusParser × Option (SbusResult RawSbusPacket) :=
  match p.state with
  | .AwaitingHead =>
    if byte == SBUS_HEADER then
      ({ buffer := Function.update p.buffer 0 byte, state := .Reading 1 }, none)
    else (p, none)
  | .Reading n =>
    if n == SBUS_PACKET_SIZE - 1 then
      let q : SbusParser :=
        { buffer := Function.update p.buffer n byte, state := .AwaitingHead }
      (q, some q.try_parse)
    else
      ({ buffer := Function.update p.buffer n byte, state := .Reading (n + 1) }, none)

/-- `SbusParser::push_byte`. -/
def SbusParser.push_byte (p : SbusParser) (byte : Nat) :
    SbusParser × Option (SbusResult SbusPacket) :=
  let r := p.push_byte_raw byte
  (r.1, r.2.map (fun res => res.map SbusPacket.parse))

/-- `SbusParser::reset`: forces the state back to `AwaitingHead`; it
returns no frame output (the Rust function returns `()`). -/
def SbusParser.reset (p : SbusParser) : SbusParser := { p with state := .AwaitingHead }

/-- `PacketIterator`: the lazy sequence adapter over a byte slice. -/
structure PacketIterator where
  parser : SbusParser
  remaining_data : List Nat

/-- `SbusParser::iter_packets`. -/
def SbusParser.iter_packets (p : SbusParser) (data : List Nat) : PacketIterator :=
  { parser := p, remaining_data := data }

/-- `PacketIterator::next` (the `Iterator` impl): loops over the
remaining bytes, feeding each through `push_byte`, returning at the
first `some` output; returns `none` at the end of the slice. -/
def PacketIterator.next : PacketIterator → PacketIterator × Option (SbusResult SbusPacket)
  | ⟨p, []⟩ => (⟨p, []⟩, none)
  | ⟨p, byte :: rest⟩ =>
    let r := p.push_byte byte
    match r.2 with
    | some result => (⟨r.1, rest⟩, some result)
    | none => PacketIterator.next ⟨r.1, rest⟩
termination_by it => it.remaining_data.length

/-- Repeatedly calling `next` until exhaustion (Rust `collect`): the
ordered list of yielded results together with the final parser. -/
def PacketIterator.collect (it : PacketIterator) : List (SbusResult SbusPacket) × SbusParser :=
  match h : it.next with
  | (it2, some r) =>
    have : it2.remaining_data.length < it.remaining_data.length := by
      obtain ⟨p, l⟩ := it
      simp only
      induction l generalizing p with
      | nil => simp [PacketIterator.next] at h
      | cons b rest ih =>
        rw [PacketIterator.next] at h
        rcases hpush : (p.push_byte b).2 with _ | res
        · rw [hpush] at h
          simp only at h
          exact Nat.lt_trans (ih _ h) (by simp)
        · rw [hpush] at h
          simp only [Prod.mk.injEq] at h
          obtain ⟨h1, -⟩ := h
          subst h1
          simp
    let tail := it2.collect
    (r :: tail.1, tail.2)
  | (it2, none) => ([], it2.parser)
termination_by it.remaining_data.length

/-- Feeding a list of bytes one at a time through `push_byte`,
collecting the `some` outputs in order, returning the final parser. -/
def feedAll (p : SbusParser) : List Nat → List (SbusResult SbusPacket) × SbusParser
  | [] => ([], p)
  | b :: rest =>
    let r := p.push_byte b
    let tail := feedAll r.1 rest
    (match r.2 with
     | some x => x :: tail.1
     | none => tail.1, tail.2)

/-- `encode_packet` from `src/lib.rs`, as a sequence of buffer updates
starting from the caller-provided buffer (`!0x07 = 0xF8`,
`!0xF8 = 0x07` in `u8`). -/
def encode_packet (buf0 : Nat → Nat) (packet : SbusPacket) : Nat → Nat :=
  let ch := packet.channels
  let buf := Function.update buf0 0 SBUS_HEADER
  let buf := Function.update buf 1 (u8 (ch 0))
  let buf := Function.update buf 2 ((buf 2 &&& 0xF8) ||| u8 ((ch 0 >>> 8) &&& 0x07))
  let buf := Function.update buf 2 ((buf 2 &&& 0x07) ||| u8 ((ch 1 &&& 0x1F) <<< 3))
  let buf := Function.update buf 3 (u8 ((ch 1 >>> 5) &&& 0x3F) ||| u8 ((ch 2 &&& 0x03) <<< 6))
  let buf := Function.update buf 4 (u8 ((ch 2 >>> 2) &&& 0xFF))
  let buf := Function.update buf 5 (u8 ((ch 2 >>> 10) &&& 0x01) ||| u8 ((ch 3 &&& 0x7F) <<< 1))
  let buf := Function.update buf 6 (u8 ((ch 3 >>> 7) &&& 0x0F) ||| u8 ((ch 4 &&& 0x0F) <<< 4))
  let buf := Function.update buf 7 (u8 ((ch 4 >>> 4) &&& 0x7F) ||| u8 ((ch 5 &&& 0x01) <<< 7))
  let buf := Function.update buf 8 (u8 ((ch 5 >>> 1) &&& 0xFF))
  let buf := Function.update buf 9 (u8 ((ch 5 >>> 9) &&& 0x03) ||| u8 ((ch 6 &&& 0x3F) <<< 2))
  let buf := Function.update buf 10 (u8 ((ch 6 >>> 6) &&& 0x1F) ||| u8 ((ch 7 &&& 0x07) <<< 5))
  let buf := Function.update buf 11 (u8 ((ch 7 >>> 3) &&& 0xFF))
  let buf := Function.update buf 12 (u8 (ch 8))
  let buf := Function.update buf 13 (u8 ((ch 8 >>> 8) &&& 0x07) ||| u8 ((ch 9 &&& 0x1F) <<< 3))
  let buf := Function.update buf 14 (u8 ((ch 9 >>> 5) &&& 0x3F) ||| u8 ((ch 10 &&& 0x03) <<< 6))
  let buf := Function.update buf 15 (u8 ((ch 10 >>> 2) &&& 0xFF))
  let buf := Function.update buf 16 (u8 ((ch 10 >>> 10) &&& 0x01) ||| u8 ((ch 11 &&& 0x7F) <<< 1))
  let buf := Function.update buf 17 (u8 ((ch 11 >>> 7) &&& 0x0F) ||| u8 ((ch 12 &&& 0x0F) <<< 4))
  let buf := Function.update buf 18 (u8 ((ch 12 >>> 4) &&& 0x7F) ||| u8 ((ch 13 &&& 0x01) <<< 7))
  let buf := Function.update buf 19 (u8 ((ch 13 >>> 1) &&& 0xFF))
  let buf := Function.update buf 20 (u8 ((ch 13 >>> 9) &&& 0x03) ||| u8 ((ch 14 &&& 0x3F) <<< 2))
  let buf := Function.update buf 21 (u8 ((ch 14 >>> 6) &&& 0x1F) ||| u8 ((ch 15 &&& 0x07) <<< 5))
  let buf := Function.update buf 22 (u8 ((ch 15 >>> 3) &&& 0xFF))
  let buf := Function.update buf 23 0x00
  let buf := Function.update buf 23
    (buf 23 ||| packet.channel_17.toNat ||| (packet.channel_18.toNat <<< 1) |||
      (packet.frame_lost.toNat <<< 2) ||| (packet.failsafe.toNat <<< 3))
  let buf := Function.update buf 24 SBUS_FOOTER
  buf

/-- Arithmetic values of the decoder's 16 channels in terms of the frame bytes. -/
def chanArith (f : Fin 25 → Nat) : Fin 16 → Nat :=
  ![(f 1 + 256 * f 2) % 2048,
    (f 2 / 8 + 32 * f 3) % 2048,
    (f 3 / 64 + 4 * f 4 + 1024 * (f 5 % 64)) % 2048,
    (f 5 / 2 + 128 * f 6) % 2048,
    (f 6 / 16 + 16 * f 7) % 2048,
    (f 7 / 128 + 2 * f 8 + 512 * (f 9 % 128)) % 2048,
    (f 9 / 4 + 64 * f 10) % 2048,
    (f 10 / 32 + 8 * f 11) % 2048,
    (f 12 + 256 * f 13) % 2048,
    (f 13 / 8 + 32 * f 14) % 2048,
    (f 14 / 64 + 4 * f 15 + 1024 * (f 16 % 64)) % 2048,
    (f 16 / 2 + 128 * f 17) % 2048,
    (f 17 / 16 + 16 * f 18) % 2048,
    (f 18 / 128 + 2 * f 19 + 512 * (f 20 % 128)) % 2048,
    (f 20 / 4 + 64 * f 21) % 2048,
    (f 21 / 32 + 8 * f 22) % 2048]

/-- Arithmetic values of the encoder's 25 output bytes in terms of the packet. -/
def encByte (p : SbusPacket) : Fin 25 → Nat :=
  let ch := p.channels
  ![15,
    ch 0 % 256,
    ch 0 / 256 % 8 + 8 * (ch 1 % 32),
    ch 1 / 32 % 64 + 64 * (ch 2 % 4),
    ch 2 / 4 % 256,
    ch 2 / 1024 % 2 + 2 * (ch 3 % 128),
    ch 3 / 128 % 16 + 16 * (ch 4 % 16),
    ch 4 / 16 % 128 + 128 * (ch 5 % 2),
    ch 5 / 2 % 256,
    ch 5 / 512 % 4 + 4 * (ch 6 % 64),
    ch 6 / 64 % 32 + 32 * (ch 7 % 8),
    ch 7 / 8 % 256,
    ch 8 % 256,
    ch 8 / 256 % 8 + 8 * (ch 9 % 32),
    ch 9 / 32 % 64 + 64 * (ch 10 % 4),
    ch 10 / 4 % 256,
    ch 10 / 1024 % 2 + 2 * (ch 11 % 128),
    ch 11 / 128 % 16 + 16 * (ch 12 % 16),
    ch 12 / 16 % 128 + 128 * (ch 13 % 2),
    ch 13 / 2 % 256,
    ch 13 / 512 % 4 + 4 * (ch 14 % 64),
    ch 14 / 64 % 32 + 32 * (ch 15 % 8),
    ch 15 / 8 % 256,
    p.channel_17.toNat + 2 * p.channel_18.toNat + 4 * p.frame_lost.toNat + 8 * p.failsafe.toNat,
    0]

/-- Frame-assembler buffer-write positions: the index written by
`push_byte_raw` in a given state for a given input byte, if any. -/
def writeIndex (s : State) (b : Nat) : Option Nat :=
  match s with
  | .AwaitingHead => if b == SBUS_HEADER then some 0 else none
  | .Reading n => some n

/-- Parser values reachable from `SbusParser::new` by any sequence of
`push_byte_raw`, `push_byte` and `reset` calls. -/
inductive Reachable : SbusParser → Prop where
  | new : Reachable SbusParser.new
  | push_raw {p : SbusParser} (b : Nat) : Reachable p → Reachable (p.push_byte_raw b).1
  | push {p : SbusParser} (b : Nat) : Reachable p → Reachable (p.push_byte b).1
  | reset {p : SbusParser} : Reachable p → Reachable p.reset

/-- Modelled from the spec's words (§4.1, §6): the 176-bit little-endian
bitstream formed by payload bytes 1–22 of a frame, LSB of byte 1 first.
Used only as the specification side of the bit-layout claim. -/
def payloadBits (f : Fin 25 → Nat) : Nat :=
  f 1 + 2 ^ 8 * f 2 + 2 ^ 16 * f 3 + 2 ^ 24 * f 4 + 2 ^ 32 * f 5 + 2 ^ 40 * f 6 +
    2 ^ 48 * f 7 + 2 ^ 56 * f 8 + 2 ^ 64 * f 9 + 2 ^ 72 * f 10 + 2 ^ 80 * f 11 +
    2 ^ 88 * f 12 + 2 ^ 96 * f 13 + 2 ^ 104 * f 14 + 2 ^ 112 * f 15 + 2 ^ 120 * f 16 +
    2 ^ 128 * f 17 + 2 ^ 136 * f 18 + 2 ^ 144 * f 19 + 2 ^ 152 * f 20 + 2 ^ 160 * f 21 +
    2 ^ 168 * f 22

/-- Modelled from the spec's words: the 11 bits of the payload bitstream
at absolute bit offset `11 * i`, masked to 11 bits. -/
def specChannel (f : Fin 25 → Nat) (i : Nat) : Nat :=
  payloadBits f >>> (11 * i) &&& 2047

/-- The reference frame from the repository's tests:
`0F E0 03 1F 58 C0 07 16 B0 80 05 2C 60 01 0B F8 C0 07 00 00 00 00 00 03 00`. -/
def testFrame : Fin 25 → Nat :=
  ![0x0F, 0xE0, 0x03, 0x1F, 0x58, 0xC0, 0x07, 0x16, 0xB0, 0x80, 0x05, 0x2C,
    0x60, 0x01, 0x0B, 0xF8, 0xC0, 0x07, 0x00, 0x00, 0x00, 0x00, 0x00, 0x03, 0x00]

/-- The packet the reference frame decodes to. -/
def testPacket : SbusPacket :=
  { channels := ![992, 992, 352, 992, 352, 352, 352, 352, 352, 352, 992, 992, 0, 0, 0, 0],
    channel_17 := true,
    channel_18 := true,
    failsafe := false,
    frame_lost := false }

/-! ### Bit-arithmetic toolkit -/

theorem lor_eq_add (k a b d : ℕ) (hd : d = 2 ^ k) (ha : a < d) (hb : d ∣ b) :
    a ||| b = a + b := by
  subst hd
  obtain ⟨c, rfl⟩ := hb
  rw [Nat.lor_comm, ← Nat.mul_add_lt_is_or ha c]
  omega

theorem mask_mod (n m M x : ℕ) (hm : m = 2 ^ n - 1) (hM : M = 2 ^ n) :
    x &&& m = x % M := by
  subst hm; subst hM
  exact Nat.and_pow_two_sub_one_eq_mod x n

theorem and2047L (x : ℕ) : 2047 &&& x = x % 2048 := by
  rw [Nat.land_comm]
  exact mask_mod 11 2047 2048 x (by norm_num) (by norm_num)

theorem and1R (x : ℕ) : x &&& 1 = x % 2 := mask_mod 1 1 2 x (by norm_num) (by norm_num)
theorem and3R (x : ℕ) : x &&& 3 = x % 4 := mask_mod 2 3 4 x (by norm_num) (by norm_num)
theorem and7R (x : ℕ) : x &&& 7 = x % 8 := mask_mod 3 7 8 x (by norm_num) (by norm_num)
theorem and15R (x : ℕ) : x &&& 15 = x % 16 := mask_mod 4 15 16 x (by norm_num) (by norm_num)
theorem and31R (x : ℕ) : x &&& 31 = x % 32 := mask_mod 5 31 32 x (by norm_num) (by norm_num)
theorem and63R (x : ℕ) : x &&& 63 = x % 64 := mask_mod 6 63 64 x (by norm_num) (by norm_num)
theorem and127R (x : ℕ) : x &&& 127 = x % 128 := mask_mod 7 127 128 x (by norm_num) (by norm_num)
theorem and255R (x : ℕ) : x &&& 255 = x % 256 := mask_mod 8 255 256 x (by norm_num) (by norm_num)

theorem lor_land_distrib (a b c : ℕ) : (a ||| b) &&& c = (a &&& c) ||| (b &&& c) := by
  apply Nat.eq_of_testBit_eq
  intro i
  simp [Nat.testBit_land, Nat.testBit_lor, Bool.and_comm, Bool.and_or_distrib_right]

theorem u8_lt (x : ℕ) : u8 x < 256 := Nat.mod_lt _ (by norm_num)

theorem or_lt_256 {a b : ℕ} (ha : a < 256) (hb : b < 256) : a ||| b < 256 := by
  have h := Nat.or_lt_two_pow (show a < 2 ^ 8 by omega) (show b < 2 ^ 8 by omega)
  omega

/-! ### Arithmetic forms of the decoder's per-channel bit gathers.
Each lemma covers one shift/OR shape of `SbusPacket.parse`. -/

theorem dec_0_8 {a b : ℕ} (ha : a < 256) :
    2047 &&& (a ||| u16 (b <<< 8)) = (a + 256 * b) % 2048 := by
  have hB : (256:ℕ) ∣ u16 (b <<< 8) := by unfold u16; rw [Nat.shiftLeft_eq]; norm_num; omega
  rw [lor_eq_add 8 _ _ 256 (by norm_num) ha hB, and2047L]
  unfold u16
  rw [Nat.shiftLeft_eq]
  norm_num
  omega

theorem dec_3_5 {a b : ℕ} (ha : a < 256) :
    2047 &&& ((a >>> 3) ||| u16 (b <<< 5)) = (a / 8 + 32 * b) % 2048 := by
  have hA : a >>> 3 < 32 := by rw [Nat.shiftRight_eq_div_pow]; omega
  have hB : (32:ℕ) ∣ u16 (b <<< 5) := by unfold u16; rw [Nat.shiftLeft_eq]; norm_num; omega
  rw [lor_eq_add 5 _ _ 32 (by norm_num) hA hB, and2047L]
  unfold u16
  rw [Nat.shiftRight_eq_div_pow, Nat.shiftLeft_eq]
  norm_num
  omega

theorem dec_6_2_10 {a b c : ℕ} (ha : a < 256) (hb : b < 256) :
    2047 &&& ((a >>> 6) ||| u16 (b <<< 2) ||| u16 (c <<< 10)) =
      (a / 64 + 4 * b + 1024 * (c % 64)) % 2048 := by
  have e1 : a >>> 6 = a / 64 := by rw [Nat.shiftRight_eq_div_pow]
  have e2 : u16 (b <<< 2) = 4 * b := by unfold u16; rw [Nat.shiftLeft_eq]; norm_num; omega
  have e3 : u16 (c <<< 10) = 1024 * (c % 64) := by
    unfold u16; rw [Nat.shiftLeft_eq]; norm_num; omega
  rw [e1, e2, e3]
  rw [lor_eq_add 2 (a / 64) (4 * b) 4 (by norm_num) (by omega) (by omega)]
  rw [lor_eq_add 10 _ _ 1024 (by norm_num) (by omega) (by omega)]
  rw [and2047L]

theorem dec_1_7 {a b : ℕ} (ha : a < 256) (hb : b < 256) :
    2047 &&& ((a >>> 1) ||| u16 (b <<< 7)) = (a / 2 + 128 * b) % 2048 := by
  have e1 : a >>> 1 = a / 2 := by rw [Nat.shiftRight_eq_div_pow]
  have e2 : u16 (b <<< 7) = 128 * b := by unfold u16; rw [Nat.shiftLeft_eq]; norm_num; omega
  rw [e1, e2, lor_eq_add 7 _ _ 128 (by norm_num) (by omega) (by omega), and2047L]

theorem dec_4_4 {a b : ℕ} (ha : a < 256) (hb : b < 256) :
    2047 &&& ((a >>> 4) ||| u16 (b <<< 4)) = (a / 16 + 16 * b) % 2048 := by
  have e1 : a >>> 4 = a / 16 := by rw [Nat.shiftRight_eq_div_pow]
  have e2 : u16 (b <<< 4) = 16 * b := by unfold u16; rw [Nat.shiftLeft_eq]; norm_num; omega
  rw [e1, e2, lor_eq_add 4 _ _ 16 (by norm_num) (by omega) (by omega), and2047L]

theorem dec_7_1_9 {a b c : ℕ} (ha : a < 256) (hb : b < 256) :
    2047 &&& ((a >>> 7) ||| u16 (b <<< 1) ||| u16 (c <<< 9)) =
      (a / 128 + 2 * b + 512 * (c % 128)) % 2048 := by
  have e1 : a >>> 7 = a / 128 := by rw [Nat.shiftRight_eq_div_pow]
  have e2 : u16 (b <<< 1) = 2 * b := by unfold u16; rw [Nat.shiftLeft_eq]; norm_num; omega
  have e3 : u16 (c <<< 9) = 512 * (c % 128) := by
    unfold u16; rw [Nat.shiftLeft_eq]; norm_num; omega
  rw [e1, e2, e3]
  rw [lor_eq_add 1 (a / 128) (2 * b) 2 (by norm_num) (by omega) (by omega)]
  rw [lor_eq_add 9 _ _ 512 (by norm_num) (by omega) (by omega)]
  rw [and2047L]

theorem dec_2_6 {a b : ℕ} (ha : a < 256) (hb : b < 256) :
    2047 &&& ((a >>> 2) ||| u16 (b <<< 6)) = (a / 4 + 64 * b) % 2048 := by
  have e1 : a >>> 2 = a / 4 := by rw [Nat.shiftRight_eq_div_pow]
  have e2 : u16 (b <<< 6) = 64 * b := by unfold u16; rw [Nat.shiftLeft_eq]; norm_num; omega
  rw [e1, e2, lor_eq_add 6 _ _ 64 (by norm_num) (by omega) (by omega), and2047L]

theorem dec_5_3 {a b : ℕ} (ha : a < 256) (hb : b < 256) :
    2047 &&& ((a >>> 5) ||| u16 (b <<< 3)) = (a / 32 + 8 * b) % 2048 := by
  have e1 : a >>> 5 = a / 32 := by rw [Nat.shiftRight_eq_div_pow]
  have e2 : u16 (b <<< 3) = 8 * b := by unfold u16; rw [Nat.shiftLeft_eq]; norm_num; omega
  rw [e1, e2, lor_eq_add 3 _ _ 8 (by norm_num) (by omega) (by omega), and2047L]

/-! ### Arithmetic forms of the encoder's per-byte fragment assemblies. -/

theorem enc_8_3 (x y : ℕ) :
    u8 ((x >>> 8) &&& 0x07) ||| u8 ((y &&& 0x1F) <<< 3) = x / 256 % 8 + 8 * (y % 32) := by
  have e1 : u8 ((x >>> 8) &&& 0x07) = x / 256 % 8 := by
    unfold u8
    rw [Nat.shiftRight_eq_div_pow, and7R]
    norm_num
    omega
  have e2 : u8 ((y &&& 0x1F) <<< 3) = 8 * (y % 32) := by
    unfold u8
    rw [Nat.shiftLeft_eq, and31R]
    norm_num
    omega
  rw [e1, e2, lor_eq_add 3 _ _ 8 (by norm_num) (by omega) (by omega)]

theorem enc_rmw (d x y : ℕ) :
    (((d &&& 0xF8) ||| u8 ((x >>> 8) &&& 0x07)) &&& 0x07) ||| u8 ((y &&& 0x1F) <<< 3) =
      x / 256 % 8 + 8 * (y % 32) := by
  have e0 : ((d &&& 0xF8) ||| u8 ((x >>> 8) &&& 0x07)) &&& 0x07 = u8 ((x >>> 8) &&& 0x07) := by
    rw [lor_land_distrib]
    have h1 : (d &&& 0xF8) &&& 0x07 = 0 := by
      rw [Nat.land_assoc, show (0xF8:ℕ) &&& 0x07 = 0 by decide, Nat.and_zero]
    rw [h1, Nat.zero_or, and7R]
    unfold u8
    rw [Nat.shiftRight_eq_div_pow, and7R]
    omega
  rw [e0]
  exact enc_8_3 x y

theorem enc_5_6 (x y : ℕ) :
    u8 ((x >>> 5) &&& 0x3F) ||| u8 ((y &&& 0x03) <<< 6) = x / 32 % 64 + 64 * (y % 4) := by
  have e1 : u8 ((x >>> 5) &&& 0x3F) = x / 32 % 64 := by
    unfold u8
    rw [Nat.shiftRight_eq_div_pow, and63R]
    norm_num
    omega
  have e2 : u8 ((y &&& 0x03) <<< 6) = 64 * (y % 4) := by
    unfold u8
    rw [Nat.shiftLeft_eq, and3R]
    norm_num
    omega
  rw [e1, e2, lor_eq_add 6 _ _ 64 (by norm_num) (by omega) (by omega)]

theorem enc_2 (x : ℕ) : u8 ((x >>> 2) &&& 0xFF) = x / 4 % 256 := by
  unfold u8
  rw [Nat.shiftRight_eq_div_pow, and255R]
  norm_num

theorem enc_10_1 (x y : ℕ) :
    u8 ((x >>> 10) &&& 0x01) ||| u8 ((y &&& 0x7F) <<< 1) = x / 1024 % 2 + 2 * (y % 128) := by
  have e1 : u8 ((x >>> 10) &&& 0x01) = x / 1024 % 2 := by
    unfold u8
    rw [Nat.shiftRight_eq_div_pow, and1R]
    norm_num
    omega
  have e2 : u8 ((y &&& 0x7F) <<< 1) = 2 * (y % 128) := by
    unfold u8
    rw [Nat.shiftLeft_eq, and127R]
    norm_num
    omega
  rw [e1, e2, lor_eq_add 1 _ _ 2 (by norm_num) (by omega) (by omega)]

theorem enc_7_4 (x y : ℕ) :
    u8 ((x >>> 7) &&& 0x0F) ||| u8 ((y &&& 0x0F) <<< 4) = x / 128 % 16 + 16 * (y % 16) := by
  have e1 : u8 ((x >>> 7) &&& 0x0F) = x / 128 % 16 := by
    unfold u8
    rw [Nat.shiftRight_eq_div_pow, and15R]
    norm_num
    omega
  have e2 : u8 ((y &&& 0x0F) <<< 4) = 16 * (y % 16) := by
    unfold u8
    rw [Nat.shiftLeft_eq, and15R]
    norm_num
    omega
  rw [e1, e2, lor_eq_add 4 _ _ 16 (by norm_num) (by omega) (by omega)]

theorem enc_4_7 (x y : ℕ) :
    u8 ((x >>> 4) &&& 0x7F) ||| u8 ((y &&& 0x01) <<< 7) = x / 16 % 128 + 128 * (y % 2) := by
  have e1 : u8 ((x >>> 4) &&& 0x7F) = x / 16 % 128 := by
    unfold u8
    rw [Nat.shiftRight_eq_div_pow, and127R]
    norm_num
    omega
  have e2 : u8 ((y &&& 0x01) <<< 7) = 128 * (y % 2) := by
    unfold u8
    rw [Nat.shiftLeft_eq, and1R]
    norm_num
    omega
  rw [e1, e2, lor_eq_add 7 _ _ 128 (by norm_num) (by omega) (by omega)]

theorem enc_1 (x : ℕ) : u8 ((x >>> 1) &&& 0xFF) = x / 2 % 256 := by
  unfold u8
  rw [Nat.shiftRight_eq_div_pow, and255R]
  norm_num

theorem enc_9_2 (x y : ℕ) :
    u8 ((x >>> 9) &&& 0x03) ||| u8 ((y &&& 0x3F) <<< 2) = x / 512 % 4 + 4 * (y % 64) := by
  have e1 : u8 ((x >>> 9) &&& 0x03) = x / 512 % 4 := by
    unfold u8
    rw [Nat.shiftRight_eq_div_pow, and3R]
    norm_num
    omega
  have e2 : u8 ((y &&& 0x3F) <<< 2) = 4 * (y % 64) := by
    unfold u8
    rw [Nat.shiftLeft_eq, and63R]
    norm_num
    omega
  rw [e1, e2, lor_eq_add 2 _ _ 4 (by norm_num) (by omega) (by omega)]

theorem enc_6_5 (x y : ℕ) :
    u8 ((x >>> 6) &&& 0x1F) ||| u8 ((y &&& 0x07) <<< 5) = x / 64 % 32 + 32 * (y % 8) := by
  have e1 : u8 ((x >>> 6) &&& 0x1F) = x / 64 % 32 := by
    unfold u8
    rw [Nat.shiftRight_eq_div_pow, and31R]
    norm_num
    omega
  have e2 : u8 ((y &&& 0x07) <<< 5) = 32 * (y % 8) := by
    unfold u8
    rw [Nat.shiftLeft_eq, and7R]
    norm_num
    omega
  rw [e1, e2, lor_eq_add 5 _ _ 32 (by norm_num) (by omega) (by omega)]

theorem enc_3 (x : ℕ) : u8 ((x >>> 3) &&& 0xFF) = x / 8 % 256 := by
  unfold u8
  rw [Nat.shiftRight_eq_div_pow, and255R]
  norm_num

theorem enc_flags (b1 b2 b3 b4 : Bool) :
    0 ||| b1.toNat ||| b2.toNat <<< 1 ||| b3.toNat <<< 2 ||| b4.toNat <<< 3 =
      b1.toNat + 2 * b2.toNat + 4 * b3.toNat + 8 * b4.toNat := by
  cases b1 <;> cases b2 <;> cases b3 <;> cases b4 <;> rfl

/-! ### Flag-bit lemmas -/

theorem flag_testBit (b k : ℕ) : is_flag_set_at_position b k = b.testBit k := by
  unfold is_flag_set_at_position
  rw [Nat.testBit_to_div_mod, Nat.shiftRight_eq_div_pow, Nat.and_one_is_mod]
  rcases Nat.mod_two_eq_zero_or_one (b / 2 ^ k) with h | h <;> rw [h] <;> rfl

theorem flag_toNat (b k : ℕ) : (is_flag_set_at_position b k).toNat = b / 2 ^ k % 2 := by
  unfold is_flag_set_at_position
  rw [Nat.shiftRight_eq_div_pow, Nat.and_one_is_mod]
  rcases Nat.mod_two_eq_zero_or_one (b / 2 ^ k) with h | h <;> rw [h] <;> rfl

/-! ### Arithmetic characterisation of decoder and encoder -/

theorem parse_channels_arith (raw : RawSbusPacket) (hf : ∀ i, raw.bytes i < 256) :
    ∀ i : Fin 16, (SbusPacket.parse raw).channels i = chanArith raw.bytes i := by
  intro i
  fin_cases i
  · show CHAN_MASK &&& (raw.bytes 1 ||| u16 (raw.bytes 2 <<< 8)) = _
    exact dec_0_8 (hf 1)
  · show CHAN_MASK &&& ((raw.bytes 2 >>> 3) ||| u16 (raw.bytes 3 <<< 5)) = _
    exact dec_3_5 (hf 2)
  · show CHAN_MASK &&& ((raw.bytes 3 >>> 6) ||| u16 (raw.bytes 4 <<< 2) ||| u16 (raw.bytes 5 <<< 10)) = _
    exact dec_6_2_10 (hf 3) (hf 4)
  · show CHAN_MASK &&& ((raw.bytes 5 >>> 1) ||| u16 (raw.bytes 6 <<< 7)) = _
    exact dec_1_7 (hf 5) (hf 6)
  · show CHAN_MASK &&& ((raw.bytes 6 >>> 4) ||| u16 (raw.bytes 7 <<< 4)) = _
    exact dec_4_4 (hf 6) (hf 7)
  · show CHAN_MASK &&& ((raw.bytes 7 >>> 7) ||| u16 (raw.bytes 8 <<< 1) ||| u16 (raw.bytes 9 <<< 9)) = _
    exact dec_7_1_9 (hf 7) (hf 8)
  · show CHAN_MASK &&& ((raw.bytes 9 >>> 2) ||| u16 (raw.bytes 10 <<< 6)) = _
    exact dec_2_6 (hf 9) (hf 10)
  · show CHAN_MASK &&& ((raw.bytes 10 >>> 5) ||| u16 (raw.bytes 11 <<< 3)) = _
    exact dec_5_3 (hf 10) (hf 11)
  · show CHAN_MASK &&& (raw.bytes 12 ||| u16 (raw.bytes 13 <<< 8)) = _
    exact dec_0_8 (hf 12)
  · show CHAN_MASK &&& ((raw.bytes 13 >>> 3) ||| u16 (raw.bytes 14 <<< 5)) = _
    exact dec_3_5 (hf 13)
  · show CHAN_MASK &&& ((raw.bytes 14 >>> 6) ||| u16 (raw.bytes 15 <<< 2) ||| u16 (raw.bytes 16 <<< 10)) = _
    exact dec_6_2_10 (hf 14) (hf 15)
  · show CHAN_MASK &&& ((raw.bytes 16 >>> 1) ||| u16 (raw.bytes 17 <<< 7)) = _
    exact dec_1_7 (hf 16) (hf 17)
  · show CHAN_MASK &&& ((raw.bytes 17 >>> 4) ||| u16 (raw.bytes 18 <<< 4)) = _
    exact dec_4_4 (hf 17) (hf 18)
  · show CHAN_MASK &&& ((raw.bytes 18 >>> 7) ||| u16 (raw.bytes 19 <<< 1) ||| u16 (raw.bytes 20 <<< 9)) = _
    exact dec_7_1_9 (hf 18) (hf 19)
  · show CHAN_MASK &&& ((raw.bytes 20 >>> 2) ||| u16 (raw.bytes 21 <<< 6)) = _
    exact dec_2_6 (hf 20) (hf 21)
  · show CHAN_MASK &&& ((raw.bytes 21 >>> 5) ||| u16 (raw.bytes 22 <<< 3)) = _
    exact dec_5_3 (hf 21) (hf 22)

theorem parse_channel_17 (raw : RawSbusPacket) :
    (SbusPacket.parse raw).channel_17 = is_flag_set_at_position (raw.bytes 23) 0 := rfl

theorem parse_channel_18 (raw : RawSbusPacket) :
    (SbusPacket.parse raw).channel_18 = is_flag_set_at_position (raw.bytes 23) 1 := rfl

theorem parse_frame_lost (raw : RawSbusPacket) :
    (SbusPacket.parse raw).frame_lost = is_flag_set_at_position (raw.bytes 23) 2 := rfl

theorem parse_failsafe (raw : RawSbusPacket) :
    (SbusPacket.parse raw).failsafe = is_flag_set_at_position (raw.bytes 23) 3 := rfl

theorem encode_packet_eq (buf0 : Nat → Nat) (p : SbusPacket) :
    ∀ i : Fin 25, encode_packet buf0 p i.val = encByte p i := by
  intro i
  fin_cases i
  · rfl
  · rfl
  · show (((buf0 2 &&& 0xF8) ||| u8 ((p.channels 0 >>> 8) &&& 0x07)) &&& 0x07) |||
        u8 ((p.channels 1 &&& 0x1F) <<< 3) = _
    exact enc_rmw (buf0 2) _ _
  · show u8 ((p.channels 1 >>> 5) &&& 0x3F) ||| u8 ((p.channels 2 &&& 0x03) <<< 6) = _
    exact enc_5_6 _ _
  · show u8 ((p.channels 2 >>> 2) &&& 0xFF) = _
    exact enc_2 _
  · show u8 ((p.channels 2 >>> 10) &&& 0x01) ||| u8 ((p.channels 3 &&& 0x7F) <<< 1) = _
    exact enc_10_1 _ _
  · show u8 ((p.channels 3 >>> 7) &&& 0x0F) ||| u8 ((p.channels 4 &&& 0x0F) <<< 4) = _
    exact enc_7_4 _ _
  · show u8 ((p.channels 4 >>> 4) &&& 0x7F) ||| u8 ((p.channels 5 &&& 0x01) <<< 7) = _
    exact enc_4_7 _ _
  · show u8 ((p.channels 5 >>> 1) &&& 0xFF) = _
    exact enc_1 _
  · show u8 ((p.channels 5 >>> 9) &&& 0x03) ||| u8 ((p.channels 6 &&& 0x3F) <<< 2) = _
    exact enc_9_2 _ _
  · show u8 ((p.channels 6 >>> 6) &&& 0x1F) ||| u8 ((p.channels 7 &&& 0x07) <<< 5) = _
    exact enc_6_5 _ _
  · show u8 ((p.channels 7 >>> 3) &&& 0xFF) = _
    exact enc_3 _
  · rfl
  · show u8 ((p.channels 8 >>> 8) &&& 0x07) ||| u8 ((p.channels 9 &&& 0x1F) <<< 3) = _
    exact enc_8_3 _ _
  · show u8 ((p.channels 9 >>> 5) &&& 0x3F) ||| u8 ((p.channels 10 &&& 0x03) <<< 6) = _
    exact enc_5_6 _ _
  · show u8 ((p.channels 10 >>> 2) &&& 0xFF) = _
    exact enc_2 _
  · show u8 ((p.channels 10 >>> 10) &&& 0x01) ||| u8 ((p.channels 11 &&& 0x7F) <<< 1) = _
    exact enc_10_1 _ _
  · show u8 ((p.channels 11 >>> 7) &&& 0x0F) ||| u8 ((p.channels 12 &&& 0x0F) <<< 4) = _
    exact enc_7_4 _ _
  · show u8 ((p.channels 12 >>> 4) &&& 0x7F) ||| u8 ((p.channels 13 &&& 0x01) <<< 7) = _
    exact enc_4_7 _ _
  · show u8 ((p.channels 13 >>> 1) &&& 0xFF) = _
    exact enc_1 _
  · show u8 ((p.channels 13 >>> 9) &&& 0x03) ||| u8 ((p.channels 14 &&& 0x3F) <<< 2) = _
    exact enc_9_2 _ _
  · show u8 ((p.channels 14 >>> 6) &&& 0x1F) ||| u8 ((p.channels 15 &&& 0x07) <<< 5) = _
    exact enc_6_5 _ _
  · show u8 ((p.channels 15 >>> 3) &&& 0xFF) = _
    exact enc_3 _
  · show 0 ||| p.channel_17.toNat ||| p.channel_18.toNat <<< 1 |||
        p.frame_lost.toNat <<< 2 ||| p.failsafe.toNat <<< 3 = _
    exact enc_flags _ _ _ _
  · rfl

/-! ### Validator characterisation -/

theorem is_sbus_footer_iff (b : Nat) :
    is_sbus_footer b = true ↔
      b = 0x00 ∨ b = 0x04 ∨ b = 0x14 ∨ b = 0x24 ∨ b = 0x34 := by
  unfold is_sbus_footer
  split <;> simp_all

theorem and240_eq_zero_iff (x : ℕ) :
    x &&& 0xF0 = 0 ↔
      x.testBit 4 = false ∧ x.testBit 5 = false ∧
        x.testBit 6 = false ∧ x.testBit 7 = false := by
  constructor
  · intro h
    have g : ∀ k, (x &&& 240).testBit k = false := by
      intro k
      rw [h]
      exact Nat.zero_testBit k
    have g4 := g 4
    have g5 := g 5
    have g6 := g 6
    have g7 := g 7
    rw [Nat.testBit_land] at g4 g5 g6 g7
    refine ⟨?_, ?_, ?_, ?_⟩
    · simpa [show (240:ℕ).testBit 4 = true by decide] using g4
    · simpa [show (240:ℕ).testBit 5 = true by decide] using g5
    · simpa [show (240:ℕ).testBit 6 = true by decide] using g6
    · simpa [show (240:ℕ).testBit 7 = true by decide] using g7
  · rintro ⟨h4, h5, h6, h7⟩
    apply Nat.eq_of_testBit_eq
    intro i
    rw [Nat.testBit_land, Nat.zero_testBit]
    rcases Nat.lt_or_ge i 8 with hi | hi
    · interval_cases i
      · rw [show Nat.testBit 240 0 = false by decide, Bool.and_false]
      · rw [show Nat.testBit 240 1 = false by decide, Bool.and_false]
      · rw [show Nat.testBit 240 2 = false by decide, Bool.and_false]
      · rw [show Nat.testBit 240 3 = false by decide, Bool.and_false]
      · rw [show Nat.testBit 240 4 = true by decide, Bool.and_true]
        exact h4
      · rw [show Nat.testBit 240 5 = true by decide, Bool.and_true]
        exact h5
      · rw [show Nat.testBit 240 6 = true by decide, Bool.and_true]
        exact h6
      · rw [show Nat.testBit 240 7 = true by decide, Bool.and_true]
        exact h7
    · have h240 : (240:ℕ).testBit i = false :=
        Nat.testBit_lt_two_pow
          (Nat.lt_of_lt_of_le (by norm_num) (Nat.pow_le_pow_right (by norm_num) hi))
      simp [h240]

/-- C3: `validate_frame` succeeds iff byte 24 is one of the five footer
values and byte 23's bits 4–7 are all zero; a bad footer reports
`InvalidFooter` with the actual byte, and only with a good footer does a
nonzero high nibble report `InvalidFlags` with the actual byte — so a
frame with both defects reports `InvalidFooter` only. -/
theorem validate_frame_spec (p : SbusParser) :
    (p.validate_frame = .Ok () ↔
      ((p.buffer 24 = 0x00 ∨ p.buffer 24 = 0x04 ∨ p.buffer 24 = 0x14 ∨
          p.buffer 24 = 0x24 ∨ p.buffer 24 = 0x34) ∧
        (p.buffer 23).testBit 4 = false ∧ (p.buffer 23).testBit 5 = false ∧
          (p.buffer 23).testBit 6 = false ∧ (p.buffer 23).testBit 7 = false)) ∧
    (¬ (p.buffer 24 = 0x00 ∨ p.buffer 24 = 0x04 ∨ p.buffer 24 = 0x14 ∨
          p.buffer 24 = 0x24 ∨ p.buffer 24 = 0x34) →
      p.validate_frame = .Err (.InvalidFooter (p.buffer 24))) ∧
    ((p.buffer 24 = 0x00 ∨ p.buffer 24 = 0x04 ∨ p.buffer 24 = 0x14 ∨
        p.buffer 24 = 0x24 ∨ p.buffer 24 = 0x34) →
      p.buffer 23 &&& 0xF0 ≠ 0 →
      p.validate_frame = .Err (.InvalidFlags (p.buffer 23))) := by
  have hfoot := is_sbus_footer_iff (p.buffer 24)
  have hflag := and240_eq_zero_iff (p.buffer 23)
  by_cases hf : is_sbus_footer (p.buffer 24) = true
  · by_cases hg : p.buffer 23 &&& 0xF0 = 0
    · have hv : p.validate_frame = .Ok () := by
        unfold SbusParser.validate_frame
        norm_num [SBUS_PACKET_SIZE, SBUS_FLAG_BYTE_MASK]
        simp [hf, hg]
      refine ⟨?_, ?_, ?_⟩
      · rw [hv]
        exact ⟨fun _ => ⟨hfoot.mp hf, hflag.mp hg⟩, fun _ => rfl⟩
      · intro hnf
        exact absurd (hfoot.mp hf) hnf
      · intro _ hflags
        exact absurd hg hflags
    · have hv : p.validate_frame = .Err (.InvalidFlags (p.buffer 23)) := by
        unfold SbusParser.validate_frame
        norm_num [SBUS_PACKET_SIZE, SBUS_FLAG_BYTE_MASK]
        simp [hf, hg]
      refine ⟨?_, ?_, ?_⟩
      · rw [hv]
        constructor
        · intro h
          simp at h
        · rintro ⟨-, hbits⟩
          exact absurd (hflag.mpr hbits) hg
      · intro hnf
        exact absurd (hfoot.mp hf) hnf
      · intro _ _
        exact hv
  · have hv : p.validate_frame = .Err (.InvalidFooter (p.buffer 24)) := by
      unfold SbusParser.validate_frame
      norm_num [SBUS_PACKET_SIZE, SBUS_FLAG_BYTE_MASK]
      simp [hf]
    refine ⟨?_, ?_, ?_⟩
    · rw [hv]
      constructor
      · intro h
        simp at h
      · rintro ⟨hset, -⟩
        exact absurd (hfoot.mpr hset) hf
    · intro _
      exact hv
    · intro hset _
      exact absurd (hfoot.mpr hset) hf

theorem validate_frame_spec_witness :
    (SbusParser.mk (fun _ => 5) State.AwaitingHead).validate_frame =
      .Err (.InvalidFooter 5) :=
  (validate_frame_spec (SbusParser.mk (fun _ => 5) State.AwaitingHead)).2.1 (by decide)

/-- C8: for every 25-byte raw frame (validated or not), every one of the
16 channel values produced by `SbusPacket.parse` is at most 2047, since
each channel is ANDed with the 11-bit mask `CHAN_MASK = 0x07FF`. -/
theorem parse_channels_le_chan_mask (raw : RawSbusPacket) :
    ∀ i : Fin 16, (SbusPacket.parse raw).channels i ≤ 2047 := by
  intro i
  fin_cases i
  all_goals
    show CHAN_MASK &&& _ ≤ 2047
    exact Nat.and_le_left

/-- C2: `push_byte_raw` behaves exactly as the spec's state machine on
every state and input byte: in `AwaitingHead` a header byte is stored at
position 0 and moves to `Reading 1` while any other byte leaves the
parser unchanged, both with no output; in `Reading n` with `n < 24` the
byte is stored at position `n`, the state becomes `Reading (n+1)`, no
output; in `Reading 24` the byte is stored at position 24, the state
returns to `AwaitingHead`, and the call returns `some` of the
validate-then-package result for the completed 25-byte buffer — the only
transition that produces an output. -/
theorem push_byte_raw_step (p : SbusParser) (b : Nat) :
    (p.state = State.AwaitingHead →
      (b = SBUS_HEADER →
        p.push_byte_raw b =
          (SbusParser.mk (Function.update p.buffer 0 b) (State.Reading 1), none)) ∧
      (b ≠ SBUS_HEADER → p.push_byte_raw b = (p, none))) ∧
    (∀ n, p.state = State.Reading n → n < 24 →
      p.push_byte_raw b =
        (SbusParser.mk (Function.update p.buffer n b) (State.Reading (n + 1)), none)) ∧
    (p.state = State.Reading 24 →
      p.push_byte_raw b =
        (SbusParser.mk (Function.update p.buffer 24 b) State.AwaitingHead,
         some (match (SbusParser.mk (Function.update p.buffer 24 b)
                  State.AwaitingHead).validate_frame with
               | .Ok _ => .Ok (RawSbusPacket.new (Function.update p.buffer 24 b))
               | .Err e => .Err e))) := by
  refine ⟨?_, ?_, ?_⟩
  · intro hs
    refine ⟨?_, ?_⟩
    · intro hb
      unfold SbusParser.push_byte_raw
      rw [hs]
      simp [hb]
    · intro hb
      unfold SbusParser.push_byte_raw
      rw [hs]
      simp [hb]
  · intro n hs hn
    unfold SbusParser.push_byte_raw
    rw [hs]
    have hne : (n == SBUS_PACKET_SIZE - 1) = false := by
      unfold SBUS_PACKET_SIZE
      simp
      omega
    simp [hne]
  · intro hs
    unfold SbusParser.push_byte_raw
    rw [hs]
    simp only [SBUS_PACKET_SIZE, show ((24:Nat) == 25 - 1) = true by decide, if_true]
    unfold SbusParser.try_parse
    have hq : (SbusParser.mk (Function.update p.buffer 24 b) State.AwaitingHead).state ≠
        State.Reading SBUS_PACKET_SIZE := by
      simp
    simp only [hq, if_pos]
    rcases hv : (SbusParser.mk (Function.update p.buffer 24 b)
        State.AwaitingHead).validate_frame with v | e
    · simp
    · simp

theorem push_byte_raw_step_witness :
    SbusParser.new.push_byte_raw 0 = (SbusParser.new, none) :=
  ((push_byte_raw_step SbusParser.new 0).1 rfl).2 (by decide)

theorem state_good_step (p : SbusParser) (b : Nat)
    (h : p.state = State.AwaitingHead ∨
      ∃ n, p.state = State.Reading n ∧ 1 ≤ n ∧ n ≤ 24) :
    (p.push_byte_raw b).1.state = State.AwaitingHead ∨
      ∃ n, (p.push_byte_raw b).1.state = State.Reading n ∧ 1 ≤ n ∧ n ≤ 24 := by
  unfold SbusParser.push_byte_raw
  rcases h with h | ⟨n, h, h1, h2⟩
  · rw [h]
    by_cases hb : (b == SBUS_HEADER) = true
    · simp only [hb, if_true]
      exact Or.inr ⟨1, rfl, by omega, by omega⟩
    · simp only [hb, if_false, Bool.false_eq_true]
      exact Or.inl h
  · rw [h]
    by_cases hn : (n == SBUS_PACKET_SIZE - 1) = true
    · simp only [hn, if_true]
      exact Or.inl trivial
    · simp only [hn, if_false, Bool.false_eq_true]
      have hn24 : n ≠ 24 := by simpa [SBUS_PACKET_SIZE] using hn
      exact Or.inr ⟨n + 1, rfl, by omega, by omega⟩

/-- C7: starting from `SbusParser::new`, every parser reachable through
any sequence of `push_byte_raw`, `push_byte` and `reset` calls has state
`AwaitingHead` or `Reading n` with `1 ≤ n ≤ 24`; consequently every
scratch-buffer write performed by `push_byte_raw` (tracked by
`writeIndex`) uses an index strictly below 25. -/
theorem reachable_invariant (p : SbusParser) (h : Reachable p) :
    (p.state = State.AwaitingHead ∨
      ∃ n, p.state = State.Reading n ∧ 1 ≤ n ∧ n ≤ 24) ∧
    (∀ b i, writeIndex p.state b = some i → i < 25) := by
  have hs : p.state = State.AwaitingHead ∨
      ∃ n, p.state = State.Reading n ∧ 1 ≤ n ∧ n ≤ 24 := by
    induction h with
    | new => exact Or.inl rfl
    | push_raw b hp ih => exact state_good_step _ b ih
    | push b hp ih => exact state_good_step _ b ih
    | reset hp ih => exact Or.inl rfl
  refine ⟨hs, ?_⟩
  intro b i hw
  rcases hs with h0 | ⟨n, hn, h1, h2⟩
  · rw [h0] at hw
    unfold writeIndex at hw
    by_cases hb : (b == SBUS_HEADER) = true
    · simp only [hb, if_true, Option.some.injEq] at hw
      omega
    · simp [hb] at hw
  · rw [hn] at hw
    unfold writeIndex at hw
    simp only [Option.some.injEq] at hw
    omega

theorem reachable_invariant_witness :
    (SbusParser.new.state = State.AwaitingHead ∨
      ∃ n, SbusParser.new.state = State.Reading n ∧ 1 ≤ n ∧ n ≤ 24) ∧ (0:Nat) < 25 :=
  ⟨(reachable_invariant SbusParser.new Reachable.new).1,
   (reachable_invariant SbusParser.new Reachable.new).2 SBUS_HEADER 0 (by decide)⟩

/-- C10: the output of `encode_packet` is independent of the initial
contents of the caller-provided buffer: on every one of the 25 byte
positions, two runs from arbitrary initial buffers `b1` and `b2` agree
(every output byte is fully determined by the packet alone, despite the
read-modify-write construction of byte 2). -/
theorem encode_independent_of_buffer (b1 b2 : Nat → Nat) (p : SbusPacket) :
    ∀ i : Fin 25, encode_packet b1 p i.val = encode_packet b2 p i.val := by
  intro i
  rw [encode_packet_eq b1 p i, encode_packet_eq b2 p i]

theorem next_some_length {it it2 : PacketIterator} {r : SbusResult SbusPacket}
    (h : it.next = (it2, some r)) :
    it2.remaining_data.length < it.remaining_data.length := by
  obtain ⟨p, l⟩ := it
  simp only
  induction l generalizing p with
  | nil => simp [PacketIterator.next] at h
  | cons b rest ih =>
    rw [PacketIterator.next] at h
    rcases hpush : (p.push_byte b).2 with _ | res
    · rw [hpush] at h
      simp only at h
      exact Nat.lt_trans (ih _ h) (by simp)
    · rw [hpush] at h
      simp only [Prod.mk.injEq] at h
      obtain ⟨h1, -⟩ := h
      subst h1
      simp

theorem next_feedAll : ∀ (l : List Nat) (p : SbusParser),
    feedAll p l =
      (match PacketIterator.next ⟨p, l⟩ with
       | (it2, some r) =>
         (r :: (feedAll it2.parser it2.remaining_data).1,
          (feedAll it2.parser it2.remaining_data).2)
       | (it2, none) => ([], it2.parser)) := by
  intro l
  induction l with
  | nil => intro p; simp [PacketIterator.next, feedAll]
  | cons b rest ih =>
    intro p
    have hfeed : feedAll p (b :: rest) =
        ((match (p.push_byte b).2 with
          | some x => x :: (feedAll (p.push_byte b).1 rest).1
          | none => (feedAll (p.push_byte b).1 rest).1),
         (feedAll (p.push_byte b).1 rest).2) := rfl
    rw [hfeed, PacketIterator.next]
    rcases hpush : (p.push_byte b).2 with _ | x <;> simp only [hpush]
    exact ih ((p.push_byte b).1)

/-- C5: for every starting parser state and byte list, collecting the
iterator returned by `iter_packets` yields exactly the ordered outputs
of feeding the bytes one at a time through `push_byte` (`feedAll`), and
both leave the parser in the same final state. -/
theorem iter_packets_collect_eq_feedAll (p : SbusParser) (data : List Nat) :
    (p.iter_packets data).collect = feedAll p data := by
  unfold SbusParser.iter_packets
  suffices H : ∀ (n : Nat) (l : List Nat) (q : SbusParser), l.length ≤ n →
      PacketIterator.collect ⟨q, l⟩ = feedAll q l by
    exact H data.length data p (Nat.le_refl _)
  intro n
  induction n with
  | zero =>
    intro l q hl
    have hnil : l = [] := List.eq_nil_of_length_eq_zero (by omega)
    subst hnil
    rw [PacketIterator.collect]
    split
    · rename_i it2 r heq
      rw [PacketIterator.next] at heq
      simp at heq
    · rename_i it2 heq
      rw [PacketIterator.next] at heq
      simp only [Prod.mk.injEq] at heq
      obtain ⟨h1, -⟩ := heq
      rw [← h1]
      rfl
  | succ n ih =>
    intro l q hl
    rw [PacketIterator.collect]
    split
    · rename_i it2 r heq
      have hstep := next_feedAll l q
      rw [heq] at hstep
      simp only at hstep
      rw [hstep]
      show (r :: it2.collect.1, it2.collect.2) = _
      have hlt := next_some_length heq
      simp only at hlt
      have hlen : it2.remaining_data.length ≤ n := by omega
      obtain ⟨p2, l2⟩ := it2
      simp only at hlen
      rw [ih l2 p2 hlen]
    · rename_i it2 heq
      have hstep := next_feedAll l q
      rw [heq] at hstep
      simp only at hstep
      rw [hstep]

/-- C4: for every 25-byte raw frame, `SbusPacket::parse` returns, for
each channel `i`, exactly the 11 bits at bit offset `11 * i` (LSB-first)
of the 176-bit bitstream formed by bytes 1–22, masked to 11 bits, and
takes the four flag booleans from bits 0–3 of byte 23; in particular the
reference frame decodes to the expected packet and re-encodes (from a
dirty all-0xFF buffer) to the identical 25 bytes. -/
theorem parse_matches_bit_layout :
    (∀ raw : RawSbusPacket, (∀ i, raw.bytes i < 256) →
      (∀ i : Fin 16, (SbusPacket.parse raw).channels i = specChannel raw.bytes i.val) ∧
      (SbusPacket.parse raw).channel_17 = (raw.bytes 23).testBit 0 ∧
      (SbusPacket.parse raw).channel_18 = (raw.bytes 23).testBit 1 ∧
      (SbusPacket.parse raw).frame_lost = (raw.bytes 23).testBit 2 ∧
      (SbusPacket.parse raw).failsafe = (raw.bytes 23).testBit 3) ∧
    (SbusPacket.parse ⟨testFrame⟩ = testPacket ∧
      ∀ i : Fin 25, encode_packet (fun _ => 0xFF) testPacket i.val = testFrame i) := by
  constructor
  · intro raw hf
    refine ⟨?_, ?_, ?_, ?_, ?_⟩
    · intro i
      have h1 := hf 1
      have h2 := hf 2
      have h3 := hf 3
      have h4 := hf 4
      have h5 := hf 5
      have h6 := hf 6
      have h7 := hf 7
      have h8 := hf 8
      have h9 := hf 9
      have h10 := hf 10
      have h11 := hf 11
      have h12 := hf 12
      have h13 := hf 13
      have h14 := hf 14
      have h15 := hf 15
      have h16 := hf 16
      have h17 := hf 17
      have h18 := hf 18
      have h19 := hf 19
      have h20 := hf 20
      have h21 := hf 21
      have h22 := hf 22
      rw [parse_channels_arith raw hf i]
      fin_cases i
      · show (raw.bytes 1 + 256 * raw.bytes 2) % 2048 = _
        unfold specChannel payloadBits
        rw [Nat.shiftRight_eq_div_pow, mask_mod 11 2047 2048 _ (by norm_num) (by norm_num)]
        norm_num
        omega
      · show (raw.bytes 2 / 8 + 32 * raw.bytes 3) % 2048 = _
        unfold specChannel payloadBits
        rw [Nat.shiftRight_eq_div_pow, mask_mod 11 2047 2048 _ (by norm_num) (by norm_num)]
        norm_num
        omega
      · show (raw.bytes 3 / 64 + 4 * raw.bytes 4 + 1024 * (raw.bytes 5 % 64)) % 2048 = _
        unfold specChannel payloadBits
        rw [Nat.shiftRight_eq_div_pow, mask_mod 11 2047 2048 _ (by norm_num) (by norm_num)]
        norm_num
        omega
      · show (raw.bytes 5 / 2 + 128 * raw.bytes 6) % 2048 = _
        unfold specChannel payloadBits
        rw [Nat.shiftRight_eq_div_pow, mask_mod 11 2047 2048 _ (by norm_num) (by norm_num)]
        norm_num
        omega
      · show (raw.bytes 6 / 16 + 16 * raw.bytes 7) % 2048 = _
        unfold specChannel payloadBits
        rw [Nat.shiftRight_eq_div_pow, mask_mod 11 2047 2048 _ (by norm_num) (by norm_num)]
        norm_num
        omega
      · show (raw.bytes 7 / 128 + 2 * raw.bytes 8 + 512 * (raw.bytes 9 % 128)) % 2048 = _
        unfold specChannel payloadBits
        rw [Nat.shiftRight_eq_div_pow, mask_mod 11 2047 2048 _ (by norm_num) (by norm_num)]
        norm_num
        omega
      · show (raw.bytes 9 / 4 + 64 * raw.bytes 10) % 2048 = _
        unfold specChannel payloadBits
        rw [Nat.shiftRight_eq_div_pow, mask_mod 11 2047 2048 _ (by norm_num) (by norm_num)]
        norm_num
        omega
      · show (raw.bytes 10 / 32 + 8 * raw.bytes 11) % 2048 = _
        unfold specChannel payloadBits
        rw [Nat.shiftRight_eq_div_pow, mask_mod 11 2047 2048 _ (by norm_num) (by norm_num)]
        norm_num
        omega
      · show (raw.bytes 12 + 256 * raw.bytes 13) % 2048 = _
        unfold specChannel payloadBits
        rw [Nat.shiftRight_eq_div_pow, mask_mod 11 2047 2048 _ (by norm_num) (by norm_num)]
        norm_num
        omega
      · show (raw.bytes 13 / 8 + 32 * raw.bytes 14) % 2048 = _
        unfold specChannel payloadBits
        rw [Nat.shiftRight_eq_div_pow, mask_mod 11 2047 2048 _ (by norm_num) (by norm_num)]
        norm_num
        omega
      · show (raw.bytes 14 / 64 + 4 * raw.bytes 15 + 1024 * (raw.bytes 16 % 64)) % 2048 = _
        unfold specChannel payloadBits
        rw [Nat.shiftRight_eq_div_pow, mask_mod 11 2047 2048 _ (by norm_num) (by norm_num)]
        norm_num
        omega
      · show (raw.bytes 16 / 2 + 128 * raw.bytes 17) % 2048 = _
        unfold specChannel payloadBits
        rw [Nat.shiftRight_eq_div_pow, mask_mod 11 2047 2048 _ (by norm_num) (by norm_num)]
        norm_num
        omega
      · show (raw.bytes 17 / 16 + 16 * raw.bytes 18) % 2048 = _
        unfold specChannel payloadBits
        rw [Nat.shiftRight_eq_div_pow, mask_mod 11 2047 2048 _ (by norm_num) (by norm_num)]
        norm_num
        omega
      · show (raw.bytes 18 / 128 + 2 * raw.bytes 19 + 512 * (raw.bytes 20 % 128)) % 2048 = _
        unfold specChannel payloadBits
        rw [Nat.shiftRight_eq_div_pow, mask_mod 11 2047 2048 _ (by norm_num) (by norm_num)]
        norm_num
        omega
      · show (raw.bytes 20 / 4 + 64 * raw.bytes 21) % 2048 = _
        unfold specChannel payloadBits
        rw [Nat.shiftRight_eq_div_pow, mask_mod 11 2047 2048 _ (by norm_num) (by norm_num)]
        norm_num
        omega
      · show (raw.bytes 21 / 32 + 8 * raw.bytes 22) % 2048 = _
        unfold specChannel payloadBits
        rw [Nat.shiftRight_eq_div_pow, mask_mod 11 2047 2048 _ (by norm_num) (by norm_num)]
        norm_num
        omega
    · rw [parse_channel_17, flag_testBit]
    · rw [parse_channel_18, flag_testBit]
    · rw [parse_frame_lost, flag_testBit]
    · rw [parse_failsafe, flag_testBit]
  · constructor
    · decide
    · decide

theorem parse_matches_bit_layout_witness :
    (∀ i, (RawSbusPacket.mk testFrame).bytes i < 256) ∧
      (SbusPacket.parse (RawSbusPacket.mk testFrame)).channels 0 =
        specChannel (RawSbusPacket.mk testFrame).bytes 0 :=
  ⟨by decide, (parse_matches_bit_layout.1 ⟨testFrame⟩ (by decide)).1 0⟩

theorem encByte_lt (p : SbusPacket) (i : Fin 25) : encByte p i < 256 := by
  have c17 := Bool.toNat_le p.channel_17
  have c18 := Bool.toNat_le p.channel_18
  have cfl := Bool.toNat_le p.frame_lost
  have cfs := Bool.toNat_le p.failsafe
  fin_cases i
  · show (15 : Nat) < 256
    omega
  · show (p.channels 0 % 256 : Nat) < 256
    omega
  · show (p.channels 0 / 256 % 8 + 8 * (p.channels 1 % 32) : Nat) < 256
    omega
  · show (p.channels 1 / 32 % 64 + 64 * (p.channels 2 % 4) : Nat) < 256
    omega
  · show (p.channels 2 / 4 % 256 : Nat) < 256
    omega
  · show (p.channels 2 / 1024 % 2 + 2 * (p.channels 3 % 128) : Nat) < 256
    omega
  · show (p.channels 3 / 128 % 16 + 16 * (p.channels 4 % 16) : Nat) < 256
    omega
  · show (p.channels 4 / 16 % 128 + 128 * (p.channels 5 % 2) : Nat) < 256
    omega
  · show (p.channels 5 / 2 % 256 : Nat) < 256
    omega
  · show (p.channels 5 / 512 % 4 + 4 * (p.channels 6 % 64) : Nat) < 256
    omega
  · show (p.channels 6 / 64 % 32 + 32 * (p.channels 7 % 8) : Nat) < 256
    omega
  · show (p.channels 7 / 8 % 256 : Nat) < 256
    omega
  · show (p.channels 8 % 256 : Nat) < 256
    omega
  · show (p.channels 8 / 256 % 8 + 8 * (p.channels 9 % 32) : Nat) < 256
    omega
  · show (p.channels 9 / 32 % 64 + 64 * (p.channels 10 % 4) : Nat) < 256
    omega
  · show (p.channels 10 / 4 % 256 : Nat) < 256
    omega
  · show (p.channels 10 / 1024 % 2 + 2 * (p.channels 11 % 128) : Nat) < 256
    omega
  · show (p.channels 11 / 128 % 16 + 16 * (p.channels 12 % 16) : Nat) < 256
    omega
  · show (p.channels 12 / 16 % 128 + 128 * (p.channels 13 % 2) : Nat) < 256
    omega
  · show (p.channels 13 / 2 % 256 : Nat) < 256
    omega
  · show (p.channels 13 / 512 % 4 + 4 * (p.channels 14 % 64) : Nat) < 256
    omega
  · show (p.channels 14 / 64 % 32 + 32 * (p.channels 15 % 8) : Nat) < 256
    omega
  · show (p.channels 15 / 8 % 256 : Nat) < 256
    omega
  · show (p.channel_17.toNat + 2 * p.channel_18.toNat + 4 * p.frame_lost.toNat + 8 * p.failsafe.toNat : Nat) < 256
    omega
  · show (0 : Nat) < 256
    omega

/-- C1: for every packet whose 16 channel values are each at most 2047
and whose four flags are arbitrary booleans, encoding with
`encode_packet` into any 25-byte buffer and decoding the result with
`SbusPacket::parse` returns the original packet. -/
theorem decode_encode_roundtrip (buf0 : Nat → Nat) (p : SbusPacket)
    (hch : ∀ i : Fin 16, p.channels i ≤ 2047) :
    SbusPacket.parse (RawSbusPacket.new (encode_packet buf0 p)) = p := by
  obtain ⟨chs, c17, c18, fs, fl⟩ := p
  have hbytes : (RawSbusPacket.new
      (encode_packet buf0 (SbusPacket.mk chs c17 c18 fs fl))).bytes =
      encByte (SbusPacket.mk chs c17 c18 fs fl) :=
    funext (fun i => encode_packet_eq buf0 (SbusPacket.mk chs c17 c18 fs fl) i)
  have hlt : ∀ i, (RawSbusPacket.new
      (encode_packet buf0 (SbusPacket.mk chs c17 c18 fs fl))).bytes i < 256 := by
    intro i
    rw [hbytes]
    exact encByte_lt (SbusPacket.mk chs c17 c18 fs fl) i
  have harith := parse_channels_arith
    (RawSbusPacket.new (encode_packet buf0 (SbusPacket.mk chs c17 c18 fs fl))) hlt
  rw [hbytes] at harith
  have hch_eq : (SbusPacket.parse (RawSbusPacket.new
      (encode_packet buf0 (SbusPacket.mk chs c17 c18 fs fl)))).channels = chs := by
    funext i
    have q0 : chs 0 ≤ 2047 := hch 0
    have q1 : chs 1 ≤ 2047 := hch 1
    have q2 : chs 2 ≤ 2047 := hch 2
    have q3 : chs 3 ≤ 2047 := hch 3
    have q4 : chs 4 ≤ 2047 := hch 4
    have q5 : chs 5 ≤ 2047 := hch 5
    have q6 : chs 6 ≤ 2047 := hch 6
    have q7 : chs 7 ≤ 2047 := hch 7
    have q8 : chs 8 ≤ 2047 := hch 8
    have q9 : chs 9 ≤ 2047 := hch 9
    have q10 : chs 10 ≤ 2047 := hch 10
    have q11 : chs 11 ≤ 2047 := hch 11
    have q12 : chs 12 ≤ 2047 := hch 12
    have q13 : chs 13 ≤ 2047 := hch 13
    have q14 : chs 14 ≤ 2047 := hch 14
    have q15 : chs 15 ≤ 2047 := hch 15
    rw [harith i]
    fin_cases i
    · show ((chs 0 % 256) + 256 * (chs 0 / 256 % 8 + 8 * (chs 1 % 32))) % 2048 = chs 0
      omega
    · show ((chs 0 / 256 % 8 + 8 * (chs 1 % 32)) / 8 + 32 * (chs 1 / 32 % 64 + 64 * (chs 2 % 4))) % 2048 = chs 1
      omega
    · show ((chs 1 / 32 % 64 + 64 * (chs 2 % 4)) / 64 + 4 * (chs 2 / 4 % 256) + 1024 * ((chs 2 / 1024 % 2 + 2 * (chs 3 % 128)) % 64)) % 2048 = chs 2
      omega
    · show ((chs 2 / 1024 % 2 + 2 * (chs 3 % 128)) / 2 + 128 * (chs 3 / 128 % 16 + 16 * (chs 4 % 16))) % 2048 = chs 3
      omega
    · show ((chs 3 / 128 % 16 + 16 * (chs 4 % 16)) / 16 + 16 * (chs 4 / 16 % 128 + 128 * (chs 5 % 2))) % 2048 = chs 4
      omega
    · show ((chs 4 / 16 % 128 + 128 * (chs 5 % 2)) / 128 + 2 * (chs 5 / 2 % 256) + 512 * ((chs 5 / 512 % 4 + 4 * (chs 6 % 64)) % 128)) % 2048 = chs 5
      omega
    · show ((chs 5 / 512 % 4 + 4 * (chs 6 % 64)) / 4 + 64 * (chs 6 / 64 % 32 + 32 * (chs 7 % 8))) % 2048 = chs 6
      omega
    · show ((chs 6 / 64 % 32 + 32 * (chs 7 % 8)) / 32 + 8 * (chs 7 / 8 % 256)) % 2048 = chs 7
      omega
    · show ((chs 8 % 256) + 256 * (chs 8 / 256 % 8 + 8 * (chs 9 % 32))) % 2048 = chs 8
      omega
    · show ((chs 8 / 256 % 8 + 8 * (chs 9 % 32)) / 8 + 32 * (chs 9 / 32 % 64 + 64 * (chs 10 % 4))) % 2048 = chs 9
      omega
    · show ((chs 9 / 32 % 64 + 64 * (chs 10 % 4)) / 64 + 4 * (chs 10 / 4 % 256) + 1024 * ((chs 10 / 1024 % 2 + 2 * (chs 11 % 128)) % 64)) % 2048 = chs 10
      omega
    · show ((chs 10 / 1024 % 2 + 2 * (chs 11 % 128)) / 2 + 128 * (chs 11 / 128 % 16 + 16 * (chs 12 % 16))) % 2048 = chs 11
      omega
    · show ((chs 11 / 128 % 16 + 16 * (chs 12 % 16)) / 16 + 16 * (chs 12 / 16 % 128 + 128 * (chs 13 % 2))) % 2048 = chs 12
      omega
    · show ((chs 12 / 16 % 128 + 128 * (chs 13 % 2)) / 128 + 2 * (chs 13 / 2 % 256) + 512 * ((chs 13 / 512 % 4 + 4 * (chs 14 % 64)) % 128)) % 2048 = chs 13
      omega
    · show ((chs 13 / 512 % 4 + 4 * (chs 14 % 64)) / 4 + 64 * (chs 14 / 64 % 32 + 32 * (chs 15 % 8))) % 2048 = chs 14
      omega
    · show ((chs 14 / 64 % 32 + 32 * (chs 15 % 8)) / 32 + 8 * (chs 15 / 8 % 256)) % 2048 = chs 15
      omega
  have h17 : (SbusPacket.parse (RawSbusPacket.new
      (encode_packet buf0 (SbusPacket.mk chs c17 c18 fs fl)))).channel_17 = c17 := by
    rw [parse_channel_17, hbytes]
    show is_flag_set_at_position
      (c17.toNat + 2 * c18.toNat + 4 * fl.toNat + 8 * fs.toNat) 0 = c17
    cases c17 <;> cases c18 <;> cases fl <;> cases fs <;> rfl
  have h18 : (SbusPacket.parse (RawSbusPacket.new
      (encode_packet buf0 (SbusPacket.mk chs c17 c18 fs fl)))).channel_18 = c18 := by
    rw [parse_channel_18, hbytes]
    show is_flag_set_at_position
      (c17.toNat + 2 * c18.toNat + 4 * fl.toNat + 8 * fs.toNat) 1 = c18
    cases c17 <;> cases c18 <;> cases fl <;> cases fs <;> rfl
  have hfl : (SbusPacket.parse (RawSbusPacket.new
      (encode_packet buf0 (SbusPacket.mk chs c17 c18 fs fl)))).frame_lost = fl := by
    rw [parse_frame_lost, hbytes]
    show is_flag_set_at_position
      (c17.toNat + 2 * c18.toNat + 4 * fl.toNat + 8 * fs.toNat) 2 = fl
    cases c17 <;> cases c18 <;> cases fl <;> cases fs <;> rfl
  have hfs : (SbusPacket.parse (RawSbusPacket.new
      (encode_packet buf0 (SbusPacket.mk chs c17 c18 fs fl)))).failsafe = fs := by
    rw [parse_failsafe, hbytes]
    show is_flag_set_at_position
      (c17.toNat + 2 * c18.toNat + 4 * fl.toNat + 8 * fs.toNat) 3 = fs
    cases c17 <;> cases c18 <;> cases fl <;> cases fs <;> rfl
  have heta : SbusPacket.parse (RawSbusPacket.new
      (encode_packet buf0 (SbusPacket.mk chs c17 c18 fs fl))) =
      SbusPacket.mk
        (SbusPacket.parse (RawSbusPacket.new
          (encode_packet buf0 (SbusPacket.mk chs c17 c18 fs fl)))).channels
        (SbusPacket.parse (RawSbusPacket.new
          (encode_packet buf0 (SbusPacket.mk chs c17 c18 fs fl)))).channel_17
        (SbusPacket.parse (RawSbusPacket.new
          (encode_packet buf0 (SbusPacket.mk chs c17 c18 fs fl)))).channel_18
        (SbusPacket.parse (RawSbusPacket.new
          (encode_packet buf0 (SbusPacket.mk chs c17 c18 fs fl)))).failsafe
        (SbusPacket.parse (RawSbusPacket.new
          (encode_packet buf0 (SbusPacket.mk chs c17 c18 fs fl)))).frame_lost := rfl
  rw [heta, hch_eq, h17, h18, hfs, hfl]

theorem decode_encode_roundtrip_witness :
    (∀ i : Fin 16, testPacket.channels i ≤ 2047) ∧
      SbusPacket.parse (RawSbusPacket.new (encode_packet (fun _ => 255) testPacket)) =
        testPacket :=
  ⟨by decide, decode_encode_roundtrip (fun _ => 255) testPacket (by decide)⟩


theorem and240_zero_lt16 {x : ℕ} (hx : x < 256) (h : x &&& 240 = 0) : x < 16 := by
  rcases Nat.lt_or_ge x 16 with h16 | h16
  · exact h16
  · exfalso
    interval_cases x <;> revert h <;> decide

/-- C6: for every 25-byte frame with header byte 0x0F, footer byte 0x00
and a flag byte whose high nibble is zero, re-encoding the parsed packet
reproduces the frame byte for byte (from any initial buffer); and for a
frame whose footer is one of the telemetry values 0x04/0x14/0x24/0x34
the round trip does not reproduce the footer byte, because the encoder
always writes footer 0x00. -/
theorem encode_decode_roundtrip :
    (∀ (f : Fin 25 → Nat) (buf0 : Nat → Nat),
      (∀ i, f i < 256) → f 0 = 0x0F → f 24 = 0x00 → f 23 &&& 0xF0 = 0 →
      ∀ i : Fin 25, encode_packet buf0 (SbusPacket.parse ⟨f⟩) i.val = f i) ∧
    (∀ (f : Fin 25 → Nat) (buf0 : Nat → Nat),
      (f 24 = 0x04 ∨ f 24 = 0x14 ∨ f 24 = 0x24 ∨ f 24 = 0x34) →
      encode_packet buf0 (SbusPacket.parse ⟨f⟩) 24 ≠ f 24) := by
  constructor
  · intro f buf0 hf h0 h24 h23
    have hlt16 : f 23 < 16 := and240_zero_lt16 (hf 23) h23
    have harith := parse_channels_arith ⟨f⟩ hf
    have h1 := hf 1
    have h2 := hf 2
    have h3 := hf 3
    have h4 := hf 4
    have h5 := hf 5
    have h6 := hf 6
    have h7 := hf 7
    have h8 := hf 8
    have h9 := hf 9
    have h10 := hf 10
    have h11 := hf 11
    have h12 := hf 12
    have h13 := hf 13
    have h14 := hf 14
    have h15 := hf 15
    have h16 := hf 16
    have h17 := hf 17
    have h18 := hf 18
    have h19 := hf 19
    have h20 := hf 20
    have h21 := hf 21
    have h22 := hf 22
    intro i
    rw [encode_packet_eq buf0 (SbusPacket.parse ⟨f⟩) i]
    fin_cases i
    · show (15 : Nat) = f 0
      omega
    · show (SbusPacket.parse (RawSbusPacket.mk f)).channels 0 % 256 = f 1
      rw [harith 0]
      show ((f 1 + 256 * f 2) % 2048) % 256 = f 1
      omega
    · show (SbusPacket.parse (RawSbusPacket.mk f)).channels 0 / 256 % 8 + 8 * ((SbusPacket.parse (RawSbusPacket.mk f)).channels 1 % 32) = f 2
      rw [harith 0, harith 1]
      show ((f 1 + 256 * f 2) % 2048) / 256 % 8 + 8 * (((f 2 / 8 + 32 * f 3) % 2048) % 32) = f 2
      omega
    · show (SbusPacket.parse (RawSbusPacket.mk f)).channels 1 / 32 % 64 + 64 * ((SbusPacket.parse (RawSbusPacket.mk f)).channels 2 % 4) = f 3
      rw [harith 1, harith 2]
      show ((f 2 / 8 + 32 * f 3) % 2048) / 32 % 64 + 64 * (((f 3 / 64 + 4 * f 4 + 1024 * (f 5 % 64)) % 2048) % 4) = f 3
      omega
    · show (SbusPacket.parse (RawSbusPacket.mk f)).channels 2 / 4 % 256 = f 4
      rw [harith 2]
      show ((f 3 / 64 + 4 * f 4 + 1024 * (f 5 % 64)) % 2048) / 4 % 256 = f 4
      omega
    · show (SbusPacket.parse (RawSbusPacket.mk f)).channels 2 / 1024 % 2 + 2 * ((SbusPacket.parse (RawSbusPacket.mk f)).channels 3 % 128) = f 5
      rw [harith 2, harith 3]
      show ((f 3 / 64 + 4 * f 4 + 1024 * (f 5 % 64)) % 2048) / 1024 % 2 + 2 * (((f 5 / 2 + 128 * f 6) % 2048) % 128) = f 5
      omega
    · show (SbusPacket.parse (RawSbusPacket.mk f)).channels 3 / 128 % 16 + 16 * ((SbusPacket.parse (RawSbusPacket.mk f)).channels 4 % 16) = f 6
      rw [harith 3, harith 4]
      show ((f 5 / 2 + 128 * f 6) % 2048) / 128 % 16 + 16 * (((f 6 / 16 + 16 * f 7) % 2048) % 16) = f 6
      omega
    · show (SbusPacket.parse (RawSbusPacket.mk f)).channels 4 / 16 % 128 + 128 * ((SbusPacket.parse (RawSbusPacket.mk f)).channels 5 % 2) = f 7
      rw [harith 4, harith 5]
      show ((f 6 / 16 + 16 * f 7) % 2048) / 16 % 128 + 128 * (((f 7 / 128 + 2 * f 8 + 512 * (f 9 % 128)) % 2048) % 2) = f 7
      omega
    · show (SbusPacket.parse (RawSbusPacket.mk f)).channels 5 / 2 % 256 = f 8
      rw [harith 5]
      show ((f 7 / 128 + 2 * f 8 + 512 * (f 9 % 128)) % 2048) / 2 % 256 = f 8
      omega
    · show (SbusPacket.parse (RawSbusPacket.mk f)).channels 5 / 512 % 4 + 4 * ((SbusPacket.parse (RawSbusPacket.mk f)).channels 6 % 64) = f 9
      rw [harith 5, harith 6]
      show ((f 7 / 128 + 2 * f 8 + 512 * (f 9 % 128)) % 2048) / 512 % 4 + 4 * (((f 9 / 4 + 64 * f 10) % 2048) % 64) = f 9
      omega
    · show (SbusPacket.parse (RawSbusPacket.mk f)).channels 6 / 64 % 32 + 32 * ((SbusPacket.parse (RawSbusPacket.mk f)).channels 7 % 8) = f 10
      rw [harith 6, harith 7]
      show ((f 9 / 4 + 64 * f 10) % 2048) / 64 % 32 + 32 * (((f 10 / 32 + 8 * f 11) % 2048) % 8) = f 10
      omega
    · show (SbusPacket.parse (RawSbusPacket.mk f)).channels 7 / 8 % 256 = f 11
      rw [harith 7]
      show ((f 10 / 32 + 8 * f 11) % 2048) / 8 % 256 = f 11
      omega
    · show (SbusPacket.parse (RawSbusPacket.mk f)).channels 8 % 256 = f 12
      rw [harith 8]
      show ((f 12 + 256 * f 13) % 2048) % 256 = f 12
      omega
    · show (SbusPacket.parse (RawSbusPacket.mk f)).channels 8 / 256 % 8 + 8 * ((SbusPacket.parse (RawSbusPacket.mk f)).channels 9 % 32) = f 13
      rw [harith 8, harith 9]
      show ((f 12 + 256 * f 13) % 2048) / 256 % 8 + 8 * (((f 13 / 8 + 32 * f 14) % 2048) % 32) = f 13
      omega
    · show (SbusPacket.parse (RawSbusPacket.mk f)).channels 9 / 32 % 64 + 64 * ((SbusPacket.parse (RawSbusPacket.mk f)).channels 10 % 4) = f 14
      rw [harith 9, harith 10]
      show ((f 13 / 8 + 32 * f 14) % 2048) / 32 % 64 + 64 * (((f 14 / 64 + 4 * f 15 + 1024 * (f 16 % 64)) % 2048) % 4) = f 14
      omega
    · show (SbusPacket.parse (RawSbusPacket.mk f)).channels 10 / 4 % 256 = f 15
      rw [harith 10]
      show ((f 14 / 64 + 4 * f 15 + 1024 * (f 16 % 64)) % 2048) / 4 % 256 = f 15
      omega
    · show (SbusPacket.parse (RawSbusPacket.mk f)).channels 10 / 1024 % 2 + 2 * ((SbusPacket.parse (RawSbusPacket.mk f)).channels 11 % 128) = f 16
      rw [harith 10, harith 11]
      show ((f 14 / 64 + 4 * f 15 + 1024 * (f 16 % 64)) % 2048) / 1024 % 2 + 2 * (((f 16 / 2 + 128 * f 17) % 2048) % 128) = f 16
      omega
    · show (SbusPacket.parse (RawSbusPacket.mk f)).channels 11 / 128 % 16 + 16 * ((SbusPacket.parse (RawSbusPacket.mk f)).channels 12 % 16) = f 17
      rw [harith 11, harith 12]
      show ((f 16 / 2 + 128 * f 17) % 2048) / 128 % 16 + 16 * (((f 17 / 16 + 16 * f 18) % 2048) % 16) = f 17
      omega
    · show (SbusPacket.parse (RawSbusPacket.mk f)).channels 12 / 16 % 128 + 128 * ((SbusPacket.parse (RawSbusPacket.mk f)).channels 13 % 2) = f 18
      rw [harith 12, harith 13]
      show ((f 17 / 16 + 16 * f 18) % 2048) / 16 % 128 + 128 * (((f 18 / 128 + 2 * f 19 + 512 * (f 20 % 128)) % 2048) % 2) = f 18
      omega
    · show (SbusPacket.parse (RawSbusPacket.mk f)).channels 13 / 2 % 256 = f 19
      rw [harith 13]
      show ((f 18 / 128 + 2 * f 19 + 512 * (f 20 % 128)) % 2048) / 2 % 256 = f 19
      omega
    · show (SbusPacket.parse (RawSbusPacket.mk f)).channels 13 / 512 % 4 + 4 * ((SbusPacket.parse (RawSbusPacket.mk f)).channels 14 % 64) = f 20
      rw [harith 13, harith 14]
      show ((f 18 / 128 + 2 * f 19 + 512 * (f 20 % 128)) % 2048) / 512 % 4 + 4 * (((f 20 / 4 + 64 * f 21) % 2048) % 64) = f 20
      omega
    · show (SbusPacket.parse (RawSbusPacket.mk f)).channels 14 / 64 % 32 + 32 * ((SbusPacket.parse (RawSbusPacket.mk f)).channels 15 % 8) = f 21
      rw [harith 14, harith 15]
      show ((f 20 / 4 + 64 * f 21) % 2048) / 64 % 32 + 32 * (((f 21 / 32 + 8 * f 22) % 2048) % 8) = f 21
      omega
    · show (SbusPacket.parse (RawSbusPacket.mk f)).channels 15 / 8 % 256 = f 22
      rw [harith 15]
      show ((f 21 / 32 + 8 * f 22) % 2048) / 8 % 256 = f 22
      omega
    · show (SbusPacket.parse (RawSbusPacket.mk f)).channel_17.toNat +
          2 * (SbusPacket.parse (RawSbusPacket.mk f)).channel_18.toNat +
          4 * (SbusPacket.parse (RawSbusPacket.mk f)).frame_lost.toNat +
          8 * (SbusPacket.parse (RawSbusPacket.mk f)).failsafe.toNat = f 23
      rw [parse_channel_17, parse_channel_18, parse_frame_lost, parse_failsafe,
        flag_toNat, flag_toNat, flag_toNat, flag_toNat]
      show f 23 / 2 ^ 0 % 2 + 2 * (f 23 / 2 ^ 1 % 2) + 4 * (f 23 / 2 ^ 2 % 2) +
        8 * (f 23 / 2 ^ 3 % 2) = f 23
      norm_num
      omega
    · show (0 : Nat) = f 24
      omega
  · intro f buf0 h24
    have h0 : encode_packet buf0 (SbusPacket.parse ⟨f⟩) 24 = 0 :=
      encode_packet_eq buf0 (SbusPacket.parse ⟨f⟩) 24
    rw [h0]
    omega

theorem encode_decode_roundtrip_witness :
    ((∀ i, testFrame i < 256) ∧ testFrame 0 = 0x0F ∧ testFrame 24 = 0x00 ∧
        testFrame 23 &&& 0xF0 = 0 ∧
      encode_packet (fun _ => 255) (SbusPacket.parse ⟨testFrame⟩) 5 = testFrame 5) ∧
    ((fun i => if i = (24 : Fin 25) then 0x14 else testFrame i) 24 = (0x14 : Nat) ∧
      encode_packet (fun _ => 255)
        (SbusPacket.parse ⟨fun i => if i = (24 : Fin 25) then 0x14 else testFrame i⟩) 24 ≠
        (fun i => if i = (24 : Fin 25) then 0x14 else testFrame i) 24) :=
  ⟨⟨by decide, by decide, by decide, by decide,
    encode_decode_roundtrip.1 testFrame (fun _ => 255) (by decide) (by decide) (by decide)
      (by decide) ⟨5, by norm_num⟩⟩,
   ⟨by decide,
    encode_decode_roundtrip.2 (fun i => if i = (24 : Fin 25) then 0x14 else testFrame i)
      (fun _ => 255) (Or.inr (Or.inl (by decide)))⟩⟩


theorem push_byte_header (B : Nat → Nat) (b : Nat) (hb : b = 0x0F) :
    (SbusParser.mk B State.AwaitingHead).push_byte b =
      (SbusParser.mk (Function.update B 0 b) (State.Reading 1), none) := by
  unfold SbusParser.push_byte SbusParser.push_byte_raw
  simp [hb, SBUS_HEADER]

theorem push_byte_mid (B : Nat → Nat) (n b : Nat)
    (hn : (n == SBUS_PACKET_SIZE - 1) = false) :
    (SbusParser.mk B (State.Reading n)).push_byte b =
      (SbusParser.mk (Function.update B n b) (State.Reading (n + 1)), none) := by
  unfold SbusParser.push_byte SbusParser.push_byte_raw
  simp [hn]

theorem push_byte_last (B : Nat → Nat) (b : Nat) :
    (SbusParser.mk B (State.Reading 24)).push_byte b =
      (SbusParser.mk (Function.update B 24 b) State.AwaitingHead,
       some (SbusResult.map SbusPacket.parse
         ((SbusParser.mk (Function.update B 24 b) State.AwaitingHead).try_parse))) := by
  unfold SbusParser.push_byte SbusParser.push_byte_raw
  simp [SBUS_PACKET_SIZE]

theorem feedAll_cons (q : SbusParser) (b : Nat) (rest : List Nat) :
    feedAll q (b :: rest) =
      ((match (q.push_byte b).2 with
        | some x => x :: (feedAll (q.push_byte b).1 rest).1
        | none => (feedAll (q.push_byte b).1 rest).1),
       (feedAll (q.push_byte b).1 rest).2) := rfl

theorem feedAll_fst_none (q : SbusParser) (b : Nat) (rest : List Nat) (q2 : SbusParser)
    (h : q.push_byte b = (q2, none)) :
    (feedAll q (b :: rest)).1 = (feedAll q2 rest).1 := by
  rw [feedAll_cons, h]

theorem feedAll_fst_some (q : SbusParser) (b : Nat) (rest : List Nat) (q2 : SbusParser)
    (r : SbusResult SbusPacket) (h : q.push_byte b = (q2, some r)) :
    (feedAll q (b :: rest)).1 = r :: (feedAll q2 rest).1 := by
  rw [feedAll_cons, h]

/-- C9: `reset` puts the parser in `AwaitingHead` (and, returning `()`,
emits no frame); afterwards feeding the 25 bytes of any valid frame
(header `0x0F`, valid footer, flag high nibble zero) through `push_byte`
yields no output on the first 24 bytes and exactly one output on the
25th: `Ok` of the parse of exactly that frame, with no residue from any
discarded partial frame. -/
theorem reset_then_feed (p : SbusParser) (f : Fin 25 → Nat)
    (h0 : f 0 = 0x0F) (hfoot : is_sbus_footer (f 24) = true)
    (hflag : f 23 &&& 0xF0 = 0) :
    p.reset.state = State.AwaitingHead ∧
    (feedAll p.reset ((List.ofFn f).take 24)).1 = [] ∧
    (feedAll p.reset (List.ofFn f)).1 = [SbusResult.Ok (SbusPacket.parse ⟨f⟩)] := by
  have hreset : p.reset = SbusParser.mk p.buffer State.AwaitingHead := rfl
  refine ⟨rfl, ?_, ?_⟩
  · have htake : (List.ofFn f).take 24 = [f 0, f 1, f 2, f 3, f 4, f 5, f 6, f 7, f 8, f 9, f 10, f 11, f 12, f 13, f 14, f 15, f 16, f 17, f 18, f 19, f 20, f 21, f 22, f 23] := rfl
    rw [htake, hreset]
    rw [feedAll_fst_none _ _ _ _ (push_byte_header _ _ h0)]
    rw [feedAll_fst_none _ _ _ _ (push_byte_mid _ 1 _ rfl)]
    rw [feedAll_fst_none _ _ _ _ (push_byte_mid _ 2 _ rfl)]
    rw [feedAll_fst_none _ _ _ _ (push_byte_mid _ 3 _ rfl)]
    rw [feedAll_fst_none _ _ _ _ (push_byte_mid _ 4 _ rfl)]
    rw [feedAll_fst_none _ _ _ _ (push_byte_mid _ 5 _ rfl)]
    rw [feedAll_fst_none _ _ _ _ (push_byte_mid _ 6 _ rfl)]
    rw [feedAll_fst_none _ _ _ _ (push_byte_mid _ 7 _ rfl)]
    rw [feedAll_fst_none _ _ _ _ (push_byte_mid _ 8 _ rfl)]
    rw [feedAll_fst_none _ _ _ _ (push_byte_mid _ 9 _ rfl)]
    rw [feedAll_fst_none _ _ _ _ (push_byte_mid _ 10 _ rfl)]
    rw [feedAll_fst_none _ _ _ _ (push_byte_mid _ 11 _ rfl)]
    rw [feedAll_fst_none _ _ _ _ (push_byte_mid _ 12 _ rfl)]
    rw [feedAll_fst_none _ _ _ _ (push_byte_mid _ 13 _ rfl)]
    rw [feedAll_fst_none _ _ _ _ (push_byte_mid _ 14 _ rfl)]
    rw [feedAll_fst_none _ _ _ _ (push_byte_mid _ 15 _ rfl)]
    rw [feedAll_fst_none _ _ _ _ (push_byte_mid _ 16 _ rfl)]
    rw [feedAll_fst_none _ _ _ _ (push_byte_mid _ 17 _ rfl)]
    rw [feedAll_fst_none _ _ _ _ (push_byte_mid _ 18 _ rfl)]
    rw [feedAll_fst_none _ _ _ _ (push_byte_mid _ 19 _ rfl)]
    rw [feedAll_fst_none _ _ _ _ (push_byte_mid _ 20 _ rfl)]
    rw [feedAll_fst_none _ _ _ _ (push_byte_mid _ 21 _ rfl)]
    rw [feedAll_fst_none _ _ _ _ (push_byte_mid _ 22 _ rfl)]
    rw [feedAll_fst_none _ _ _ _ (push_byte_mid _ 23 _ rfl)]
    rfl
  · have hofn : List.ofFn f = [f 0, f 1, f 2, f 3, f 4, f 5, f 6, f 7, f 8, f 9, f 10, f 11, f 12, f 13, f 14, f 15, f 16, f 17, f 18, f 19, f 20, f 21, f 22, f 23, f 24] := rfl
    rw [hofn, hreset]
    rw [feedAll_fst_none _ _ _ _ (push_byte_header _ _ h0)]
    rw [feedAll_fst_none _ _ _ _ (push_byte_mid _ 1 _ rfl)]
    rw [feedAll_fst_none _ _ _ _ (push_byte_mid _ 2 _ rfl)]
    rw [feedAll_fst_none _ _ _ _ (push_byte_mid _ 3 _ rfl)]
    rw [feedAll_fst_none _ _ _ _ (push_byte_mid _ 4 _ rfl)]
    rw [feedAll_fst_none _ _ _ _ (push_byte_mid _ 5 _ rfl)]
    rw [feedAll_fst_none _ _ _ _ (push_byte_mid _ 6 _ rfl)]
    rw [feedAll_fst_none _ _ _ _ (push_byte_mid _ 7 _ rfl)]
    rw [feedAll_fst_none _ _ _ _ (push_byte_mid _ 8 _ rfl)]
    rw [feedAll_fst_none _ _ _ _ (push_byte_mid _ 9 _ rfl)]
    rw [feedAll_fst_none _ _ _ _ (push_byte_mid _ 10 _ rfl)]
    rw [feedAll_fst_none _ _ _ _ (push_byte_mid _ 11 _ rfl)]
    rw [feedAll_fst_none _ _ _ _ (push_byte_mid _ 12 _ rfl)]
    rw [feedAll_fst_none _ _ _ _ (push_byte_mid _ 13 _ rfl)]
    rw [feedAll_fst_none _ _ _ _ (push_byte_mid _ 14 _ rfl)]
    rw [feedAll_fst_none _ _ _ _ (push_byte_mid _ 15 _ rfl)]
    rw [feedAll_fst_none _ _ _ _ (push_byte_mid _ 16 _ rfl)]
    rw [feedAll_fst_none _ _ _ _ (push_byte_mid _ 17 _ rfl)]
    rw [feedAll_fst_none _ _ _ _ (push_byte_mid _ 18 _ rfl)]
    rw [feedAll_fst_none _ _ _ _ (push_byte_mid _ 19 _ rfl)]
    rw [feedAll_fst_none _ _ _ _ (push_byte_mid _ 20 _ rfl)]
    rw [feedAll_fst_none _ _ _ _ (push_byte_mid _ 21 _ rfl)]
    rw [feedAll_fst_none _ _ _ _ (push_byte_mid _ 22 _ rfl)]
    rw [feedAll_fst_none _ _ _ _ (push_byte_mid _ 23 _ rfl)]
    rw [feedAll_fst_some _ _ _ _ _ (push_byte_last _ (f 24))]
    have hvalid : (SbusParser.mk (Function.update (Function.update (Function.update (Function.update (Function.update (Function.update (Function.update (Function.update (Function.update (Function.update (Function.update (Function.update (Function.update (Function.update (Function.update (Function.update (Function.update (Function.update (Function.update (Function.update (Function.update (Function.update (Function.update (Function.update (Function.update p.buffer 0 (f 0)) 1 (f 1)) 2 (f 2)) 3 (f 3)) 4 (f 4)) 5 (f 5)) 6 (f 6)) 7 (f 7)) 8 (f 8)) 9 (f 9)) 10 (f 10)) 11 (f 11)) 12 (f 12)) 13 (f 13)) 14 (f 14)) 15 (f 15)) 16 (f 16)) 17 (f 17)) 18 (f 18)) 19 (f 19)) 20 (f 20)) 21 (f 21)) 22 (f 22)) 23 (f 23)) 24 (f 24))
        State.AwaitingHead).validate_frame = .Ok () := by
      unfold SbusParser.validate_frame SBUS_PACKET_SIZE SBUS_FLAG_BYTE_MASK
      norm_num
      simp [Function.update, hfoot, hflag]
    have htp : (SbusParser.mk (Function.update (Function.update (Function.update (Function.update (Function.update (Function.update (Function.update (Function.update (Function.update (Function.update (Function.update (Function.update (Function.update (Function.update (Function.update (Function.update (Function.update (Function.update (Function.update (Function.update (Function.update (Function.update (Function.update (Function.update (Function.update p.buffer 0 (f 0)) 1 (f 1)) 2 (f 2)) 3 (f 3)) 4 (f 4)) 5 (f 5)) 6 (f 6)) 7 (f 7)) 8 (f 8)) 9 (f 9)) 10 (f 10)) 11 (f 11)) 12 (f 12)) 13 (f 13)) 14 (f 14)) 15 (f 15)) 16 (f 16)) 17 (f 17)) 18 (f 18)) 19 (f 19)) 20 (f 20)) 21 (f 21)) 22 (f 22)) 23 (f 23)) 24 (f 24))
        State.AwaitingHead).try_parse =
        .Ok (RawSbusPacket.new (Function.update (Function.update (Function.update (Function.update (Function.update (Function.update (Function.update (Function.update (Function.update (Function.update (Function.update (Function.update (Function.update (Function.update (Function.update (Function.update (Function.update (Function.update (Function.update (Function.update (Function.update (Function.update (Function.update (Function.update (Function.update p.buffer 0 (f 0)) 1 (f 1)) 2 (f 2)) 3 (f 3)) 4 (f 4)) 5 (f 5)) 6 (f 6)) 7 (f 7)) 8 (f 8)) 9 (f 9)) 10 (f 10)) 11 (f 11)) 12 (f 12)) 13 (f 13)) 14 (f 14)) 15 (f 15)) 16 (f 16)) 17 (f 17)) 18 (f 18)) 19 (f 19)) 20 (f 20)) 21 (f 21)) 22 (f 22)) 23 (f 23)) 24 (f 24))) := by
      unfold SbusParser.try_parse
      simp [hvalid]
    rw [htp]
    simp only [SbusResult.map]
    have hraw : RawSbusPacket.new (Function.update (Function.update (Function.update (Function.update (Function.update (Function.update (Function.update (Function.update (Function.update (Function.update (Function.update (Function.update (Function.update (Function.update (Function.update (Function.update (Function.update (Function.update (Function.update (Function.update (Function.update (Function.update (Function.update (Function.update (Function.update p.buffer 0 (f 0)) 1 (f 1)) 2 (f 2)) 3 (f 3)) 4 (f 4)) 5 (f 5)) 6 (f 6)) 7 (f 7)) 8 (f 8)) 9 (f 9)) 10 (f 10)) 11 (f 11)) 12 (f 12)) 13 (f 13)) 14 (f 14)) 15 (f 15)) 16 (f 16)) 17 (f 17)) 18 (f 18)) 19 (f 19)) 20 (f 20)) 21 (f 21)) 22 (f 22)) 23 (f 23)) 24 (f 24)) = RawSbusPacket.mk f := by
      unfold RawSbusPacket.new
      congr 1
      funext i
      fin_cases i <;> simp [Function.update]
    rw [hraw]
    rfl

theorem reset_then_feed_witness :
    ((SbusParser.mk (fun _ => 7) (State.Reading 13)).reset.state = State.AwaitingHead ∧
      testFrame 0 = 0x0F ∧ is_sbus_footer (testFrame 24) = true ∧
        testFrame 23 &&& 0xF0 = 0) ∧
    (feedAll (SbusParser.mk (fun _ => 7) (State.Reading 13)).reset
        (List.ofFn testFrame)).1 = [SbusResult.Ok (SbusPacket.parse ⟨testFrame⟩)] :=
  ⟨⟨(reset_then_feed (SbusParser.mk (fun _ => 7) (State.Reading 13)) testFrame rfl
      (by decide) (by decide)).1, rfl, by decide, by decide⟩,
   (reset_then_feed (SbusParser.mk (fun _ => 7) (State.Reading 13)) testFrame rfl
      (by decide) (by decide)).2.2⟩
